import Mathlib

/-!
Formal model of the protocol and data core of the J1939/J1708 truck-dashboard
firmware (J1939 identifier handling, transport-protocol reassembly, DM1
parsing, J1708 framing and checksums, parameter store, watch list, and
NVS persistence), with theorems checking the specification's claims.

Modelling conventions:

* C unsigned integers are modelled as `Nat`, with `% 2^w` inserted exactly
  where the C computation can wrap (e.g. `uint32` subtraction and shifts).
* C byte arrays are modelled as `List Nat`; reads `a[i]` become
  `List.getD a i 0` (in all verified scenarios the reads are in bounds).
* C `float` values are modelled as `Rat`.  The claims checked here use
  floats only for storage and order comparison, which rationals model
  exactly.
* Out-parameters and return codes are folded into tuple / `Option` results.
-/

set_option maxHeartbeats 1000000

/-! ### J1939 CAN identifier functions (j1939_parser.cpp lines 43-86) -/

/-- Extract the 18-bit PGN from a 29-bit CAN identifier (PDU1 vs PDU2). -/
def j1939_extract_pgn (can_id : Nat) : Nat :=
  let pdu_format := (can_id >>> 16) &&& 0xFF
  let pdu_specific := (can_id >>> 8) &&& 0xFF
  let data_page := (can_id >>> 24) &&& 0x03
  if pdu_format < 240 then
    (data_page <<< 16) ||| (pdu_format <<< 8)
  else
    (data_page <<< 16) ||| (pdu_format <<< 8) ||| pdu_specific

/-- Extract the source address (low byte) from a CAN identifier. -/
def j1939_extract_source_address (can_id : Nat) : Nat :=
  can_id &&& 0xFF

/-- Extract the 3-bit priority from a CAN identifier. -/
def j1939_extract_priority (can_id : Nat) : Nat :=
  (can_id >>> 26) &&& 0x07

/-- Extract the destination address: PS byte for PDU1, 0xFF for PDU2. -/
def j1939_extract_destination (can_id : Nat) : Nat :=
  let pdu_format := (can_id >>> 16) &&& 0xFF
  if pdu_format < 240 then (can_id >>> 8) &&& 0xFF else 0xFF

/-- Build a 29-bit CAN identifier from PGN, source address and priority.
The C code computes in `uint32`; `pgn << 8` is the only step that can wrap. -/
def j1939_build_can_id (pgn source_address priority : Nat) : Nat :=
  ((priority &&& 0x07) <<< 26) ||| ((pgn <<< 8) % 2 ^ 32) ||| source_address

/-! ### Helper lemmas for disjoint bitwise-or arithmetic -/

theorem shiftLeft_lor_eq_add {b : Nat} (a : Nat) {n : Nat} (hb : b < 2 ^ n) :
    (a <<< n) ||| b = a <<< n + b := by
  rw [Nat.shiftLeft_eq, Nat.mul_comm]
  exact (Nat.mul_add_lt_is_or hb a).symm

theorem lor_eq_add_of_exists {a b n : Nat} (ha : ∃ c, a = 2 ^ n * c) (hb : b < 2 ^ n) :
    a ||| b = a + b := by
  obtain ⟨c, rfl⟩ := ha
  exact (Nat.mul_add_lt_is_or hb c).symm

theorem j1939_build_eq_add (pgn sa prio : Nat) (hp : pgn < 2 ^ 18) (hs : sa < 2 ^ 8)
    (hq : prio < 8) :
    j1939_build_can_id pgn sa prio = prio * 2 ^ 26 + pgn * 2 ^ 8 + sa := by
  have h7 : prio &&& 0x07 = prio := by
    have he : (0x07 : Nat) = 2 ^ 3 - 1 := rfl
    rw [he]
    exact Nat.and_pow_two_sub_one_of_lt_two_pow (by omega)
  have hsh : (pgn <<< 8) % 2 ^ 32 = pgn * 2 ^ 8 := by
    rw [Nat.shiftLeft_eq]
    exact Nat.mod_eq_of_lt (by omega)
  have h1 : prio <<< 26 ||| pgn * 2 ^ 8 = prio * 2 ^ 26 + pgn * 2 ^ 8 := by
    rw [shiftLeft_lor_eq_add prio (n := 26) (by omega), Nat.shiftLeft_eq]
  have h2 : prio * 2 ^ 26 + pgn * 2 ^ 8 ||| sa = prio * 2 ^ 26 + pgn * 2 ^ 8 + sa :=
    lor_eq_add_of_exists ⟨prio * 2 ^ 18 + pgn, by ring⟩ hs
  unfold j1939_build_can_id
  rw [h7, hsh, h1, h2]

theorem shiftRight_and_255_eq (x k : Nat) : (x >>> k) &&& 0xFF = x / 2 ^ k % 2 ^ 8 := by
  have he : (0xFF : Nat) = 2 ^ 8 - 1 := rfl
  rw [he, Nat.and_pow_two_sub_one_eq_mod, Nat.shiftRight_eq_div_pow]

theorem shiftRight_and_3_eq (x k : Nat) : (x >>> k) &&& 0x03 = x / 2 ^ k % 2 ^ 2 := by
  have he : (0x03 : Nat) = 2 ^ 2 - 1 := rfl
  rw [he, Nat.and_pow_two_sub_one_eq_mod, Nat.shiftRight_eq_div_pow]

theorem shiftRight_and_7_eq (x k : Nat) : (x >>> k) &&& 0x07 = x / 2 ^ k % 2 ^ 3 := by
  have he : (0x07 : Nat) = 2 ^ 3 - 1 := rfl
  rw [he, Nat.and_pow_two_sub_one_eq_mod, Nat.shiftRight_eq_div_pow]

theorem and_255_eq (x : Nat) : x &&& 0xFF = x % 2 ^ 8 := by
  have he : (0xFF : Nat) = 2 ^ 8 - 1 := rfl
  rw [he, Nat.and_pow_two_sub_one_eq_mod]

/-- Claim C2: for every pgn < 2^18, 8-bit source address and priority < 8,
decoding the identifier produced by j1939_build_can_id recovers the PGN via
j1939_extract_pgn when the PGN is PDU2-form (PF byte >= 240), and recovers
the source address and priority for all PGNs. -/
theorem j1939_pgn_roundtrip (pgn sa prio : Nat)
    (hp : pgn < 2 ^ 18) (hs : sa < 2 ^ 8) (hq : prio < 8) :
    ((pgn >>> 8) &&& 0xFF ≥ 240 →
      j1939_extract_pgn (j1939_build_can_id pgn sa prio) = pgn) ∧
    j1939_extract_source_address (j1939_build_can_id pgn sa prio) = sa ∧
    j1939_extract_priority (j1939_build_can_id pgn sa prio) = prio := by
  have hb := j1939_build_eq_add pgn sa prio hp hs hq
  refine ⟨?_, ?_, ?_⟩
  · intro hpf
    have hpf8 : (pgn >>> 8) &&& 0xFF = pgn / 2 ^ 8 % 2 ^ 8 := shiftRight_and_255_eq pgn 8
    simp only [j1939_extract_pgn, shiftRight_and_255_eq, shiftRight_and_3_eq, hb]
    have hcond : ¬ ((prio * 2 ^ 26 + pgn * 2 ^ 8 + sa) / 2 ^ 16 % 2 ^ 8 < 240) := by omega
    rw [if_neg hcond]
    have hlt : ((prio * 2 ^ 26 + pgn * 2 ^ 8 + sa) / 2 ^ 16 % 2 ^ 8) <<< 8 < 2 ^ 16 := by
      rw [Nat.shiftLeft_eq]
      omega
    rw [shiftLeft_lor_eq_add _ hlt, Nat.shiftLeft_eq, Nat.shiftLeft_eq]
    rw [lor_eq_add_of_exists (n := 8)
      ⟨(prio * 2 ^ 26 + pgn * 2 ^ 8 + sa) / 2 ^ 24 % 2 ^ 2 * 2 ^ 8 +
        (prio * 2 ^ 26 + pgn * 2 ^ 8 + sa) / 2 ^ 16 % 2 ^ 8, by ring⟩ (by omega)]
    omega
  · simp only [j1939_extract_source_address, hb, and_255_eq]
    omega
  · simp only [j1939_extract_priority, hb, shiftRight_and_7_eq]
    omega

/-- Witness for claim C2 at the concrete PDU2 triple (65262, 0x00, 6)
from the specification's scenario 1. -/
theorem j1939_pgn_roundtrip_witness :
    (65262 < 2 ^ 18 ∧ 0 < 2 ^ 8 ∧ 6 < 8) ∧
    ((65262 >>> 8) &&& 0xFF ≥ 240 →
      j1939_extract_pgn (j1939_build_can_id 65262 0 6) = 65262) ∧
    j1939_extract_source_address (j1939_build_can_id 65262 0 6) = 0 ∧
    j1939_extract_priority (j1939_build_can_id 65262 0 6) = 6 :=
  ⟨by decide, j1939_pgn_roundtrip 65262 0 6 (by decide) (by decide) (by decide)⟩

/-! ### J1708 checksum functions (j1708_parser.cpp lines 84-106).
The C code accumulates the sum in a `uint8_t`, i.e. modulo 256. -/

def j1708_checksum_sum (data : List Nat) : Nat :=
  data.foldl (fun s b => (s + b) % 256) 0

/-- Validity check: message of length at least 2 whose byte sum is 0 mod 256. -/
def j1708_validate_checksum (data : List Nat) : Bool :=
  if data.length < 2 then false
  else j1708_checksum_sum data == 0

/-- Checksum byte: two's complement of the byte sum (0 for empty input). -/
def j1708_calculate_checksum (data : List Nat) : Nat :=
  if data.length = 0 then 0
  else (0x100 - j1708_checksum_sum data) % 256

theorem foldl_mod_sum (data : List Nat) :
    ∀ s, s < 256 → data.foldl (fun a b => (a + b) % 256) s = (s + data.sum) % 256 := by
  induction data with
  | nil =>
    intro s hs
    simpa using (Nat.mod_eq_of_lt hs).symm
  | cons b rest ih =>
    intro s hs
    simp only [List.foldl_cons, List.sum_cons]
    rw [ih _ (Nat.mod_lt _ (by omega)), Nat.mod_add_mod, ← Nat.add_assoc]

theorem j1708_checksum_sum_eq (data : List Nat) :
    j1708_checksum_sum data = data.sum % 256 := by
  simpa [j1708_checksum_sum] using foldl_mod_sum data 0 (by omega)

/-- Counterexample for claim C5 as stated: for the empty byte sequence,
appending the calculated checksum does not validate (the framer demands a
minimum length of 2, and calculate returns 0 for empty input). -/
theorem j1708_checksum_roundtrip_counterexample :
    j1708_validate_checksum ([] ++ [j1708_calculate_checksum []]) = false := by
  decide

/-- Claim C5 (amended to nonempty sequences): for any nonempty byte
sequence, appending the byte returned by j1708_calculate_checksum yields a
sequence accepted by j1708_validate_checksum. -/
theorem j1708_checksum_roundtrip (data : List Nat) (h : data ≠ []) :
    j1708_validate_checksum (data ++ [j1708_calculate_checksum data]) = true := by
  have hlen : data.length ≠ 0 := fun hc => h (List.eq_nil_of_length_eq_zero hc)
  have hcalc : j1708_calculate_checksum data = (0x100 - data.sum % 256) % 256 := by
    rw [j1708_calculate_checksum, if_neg hlen, j1708_checksum_sum_eq]
  simp only [j1708_validate_checksum, j1708_checksum_sum_eq, hcalc, List.sum_append,
    List.length_append, List.sum_cons, List.sum_nil]
  rw [if_neg (by simp; omega), beq_iff_eq]
  omega

/-- Witness for the amended claim C5 at the concrete message bytes
(mid 128, pid 110, data 212) from the specification's scenario 9. -/
theorem j1708_checksum_roundtrip_witness :
    [128, 110, 212] ≠ ([] : List Nat) ∧
    j1708_validate_checksum
      ([128, 110, 212] ++ [j1708_calculate_checksum [128, 110, 212]]) = true :=
  ⟨by decide, j1708_checksum_roundtrip [128, 110, 212] (by decide)⟩

/-! ### Watch-list severity (watch_list_manager.cpp check_alert_level) -/

inductive alert_level_t
  | none
  | info
  | warning
  | critical
deriving DecidableEq

/-- Watch-list entry.  Custom label strings are omitted (not used by any
checked claim); float fields are modelled as rationals. -/
structure watch_item_t where
  param_id : Nat
  widget_type : Nat
  page : Nat
  position : Nat
  decimal_places : Nat
  warn_low : Rat
  warn_high : Rat
  crit_low : Rat
  crit_high : Rat
  gauge_min : Rat
  gauge_max : Rat
  enabled : Bool
  current_alert : alert_level_t
deriving DecidableEq

/-- Severity computation, critical thresholds checked first. -/
def check_alert_level (item : watch_item_t) (value : Rat) : alert_level_t :=
  if value ≤ item.crit_low ∨ value ≥ item.crit_high then .critical
  else if value ≤ item.warn_low ∨ value ≥ item.warn_high then .warning
  else .none

/-- Severity rule written from the specification's words: CRITICAL if
v ≤ crit_low or v ≥ crit_high, else WARNING if v ≤ warn_low or
v ≥ warn_high, else NONE. -/
def severity_spec (v warn_low warn_high crit_low crit_high : Rat) : alert_level_t :=
  if v ≤ crit_low ∨ v ≥ crit_high then .critical
  else if v ≤ warn_low ∨ v ≥ warn_high then .warning
  else .none

/-- Claim C7: the watch-list severity computation implements the
specification's rule, and its result is uniquely determined by the value and
the four thresholds (two items with equal thresholds yield equal severity,
so repeated calls with the same input return the same severity). -/
theorem check_alert_level_ok :
    (∀ (item : watch_item_t) (v : Rat),
      check_alert_level item v =
        severity_spec v item.warn_low item.warn_high item.crit_low item.crit_high) ∧
    (∀ (item₁ item₂ : watch_item_t) (v : Rat),
      item₁.warn_low = item₂.warn_low → item₁.warn_high = item₂.warn_high →
      item₁.crit_low = item₂.crit_low → item₁.crit_high = item₂.crit_high →
      check_alert_level item₁ v = check_alert_level item₂ v) := by
  constructor
  · intro item v
    rfl
  · intro item₁ item₂ v h1 h2 h3 h4
    simp only [check_alert_level, h1, h2, h3, h4]

/-- Witness for claim C7 at the default battery-voltage thresholds
(12.0, 15.0, 11.5, 15.5) and value 11.0 (a critical-low reading). -/
theorem check_alert_level_ok_witness :
    check_alert_level
      { param_id := 130, widget_type := 0, page := 3, position := 0,
        decimal_places := 1, warn_low := 12, warn_high := 15,
        crit_low := 23/2, crit_high := 31/2, gauge_min := 0, gauge_max := 100,
        enabled := true, current_alert := .none } 11 =
      severity_spec 11 12 15 (23/2) (31/2) ∧
    check_alert_level
      { param_id := 130, widget_type := 0, page := 3, position := 0,
        decimal_places := 1, warn_low := 12, warn_high := 15,
        crit_low := 23/2, crit_high := 31/2, gauge_min := 0, gauge_max := 100,
        enabled := true, current_alert := .none } 11 =
    check_alert_level
      { param_id := 130, widget_type := 1, page := 0, position := 2,
        decimal_places := 0, warn_low := 12, warn_high := 15,
        crit_low := 23/2, crit_high := 31/2, gauge_min := 0, gauge_max := 200,
        enabled := false, current_alert := .critical } 11 :=
  ⟨check_alert_level_ok.1 _ 11, check_alert_level_ok.2 _ _ 11 rfl rfl rfl rfl⟩

/-! ### Parameter store (data_manager.cpp).
Change callbacks are invoked on update but never mutate the store itself,
so they are omitted from the state. The dense C array indexed by the
parameter identity is modelled as a total function on identities. -/

def PARAM_NONE : Nat := 0

def PARAM_MAX : Nat := 256

structure data_parameter_t where
  value : Rat
  prev_value : Rat
  timestamp_ms : Nat
  update_count : Nat
  source : Nat
  is_valid : Bool
deriving DecidableEq

def data_parameter_zero : data_parameter_t :=
  { value := 0, prev_value := 0, timestamp_ms := 0, update_count := 0,
    source := 0, is_valid := false }

structure data_manager_t where
  parameters : Nat → data_parameter_t
  total_updates : Nat
  initialized : Bool

def data_manager_init : data_manager_t :=
  { parameters := fun _ => data_parameter_zero, total_updates := 0, initialized := true }

/-- data_manager_update (lines 32-61): installs the new value unconditionally
(no timestamp comparison), stores the previous value, stamps time and source,
sets valid and increments counters. -/
def data_manager_update (dm : data_manager_t) (param_id : Nat) (value : Rat)
    (source : Nat) (timestamp_ms : Nat) : data_manager_t :=
  if ¬ dm.initialized then dm
  else if param_id = PARAM_NONE ∨ param_id ≥ PARAM_MAX then dm
  else
    let param := dm.parameters param_id
    let param' : data_parameter_t :=
      { prev_value := param.value
        value := value
        timestamp_ms := timestamp_ms
        source := source
        is_valid := true
        update_count := param.update_count + 1 }
    { dm with
      parameters := Function.update dm.parameters param_id param'
      total_updates := dm.total_updates + 1 }

/-- data_manager_get (lines 67-78): returns the value only for a valid record. -/
def data_manager_get (dm : data_manager_t) (param_id : Nat) : Option Rat :=
  if ¬ dm.initialized then none
  else if param_id = PARAM_NONE ∨ param_id ≥ PARAM_MAX then none
  else if ¬ (dm.parameters param_id).is_valid then none
  else some (dm.parameters param_id).value

/-- data_manager_invalidate (lines 124-129): clears the valid flag. -/
def data_manager_invalidate (dm : data_manager_t) (param_id : Nat) : data_manager_t :=
  if ¬ dm.initialized then dm
  else if param_id = PARAM_NONE ∨ param_id ≥ PARAM_MAX then dm
  else { dm with
    parameters := Function.update dm.parameters param_id
      { dm.parameters param_id with is_valid := false } }

/-- Counterexample for claim C3 as stated: two updates to identity 1, the
second arriving with an OLDER timestamp (50 < 100).  The claim predicts the
stored record keeps value 10 and timestamp 100; the code keeps the
last-arriving update (value 20, timestamp 50) because data_manager_update
never compares timestamps. -/
theorem data_manager_update_counterexample :
    ((data_manager_update (data_manager_update data_manager_init 1 10 1 100)
        1 20 1 50).parameters 1).value = 20 ∧
    ((data_manager_update (data_manager_update data_manager_init 1 10 1 100)
        1 20 1 50).parameters 1).timestamp_ms = 50 ∧
    ¬ (((data_manager_update (data_manager_update data_manager_init 1 10 1 100)
        1 20 1 50).parameters 1).value = 10 ∧
       ((data_manager_update (data_manager_update data_manager_init 1 10 1 100)
        1 20 1 50).parameters 1).timestamp_ms = 100) := by
  refine ⟨?_, ?_, ?_⟩ <;> decide

/-- Claim C3 (amended): the parameter store resolves two updates to the same
identity by ARRIVAL order, not by timestamp: after two updates the stored
record carries the value, timestamp and source of the last-arriving update
(with the first update's value as prev_value), regardless of which update
carries the newer timestamp. -/
theorem data_manager_update_last_arrival_wins (dm : data_manager_t) (id : Nat)
    (v1 v2 : Rat) (s1 s2 t1 t2 : Nat)
    (hinit : dm.initialized = true) (h0 : id ≠ PARAM_NONE) (hmax : id < PARAM_MAX) :
    ((data_manager_update (data_manager_update dm id v1 s1 t1) id v2 s2 t2).parameters
        id).value = v2 ∧
    ((data_manager_update (data_manager_update dm id v1 s1 t1) id v2 s2 t2).parameters
        id).timestamp_ms = t2 ∧
    ((data_manager_update (data_manager_update dm id v1 s1 t1) id v2 s2 t2).parameters
        id).source = s2 ∧
    ((data_manager_update (data_manager_update dm id v1 s1 t1) id v2 s2 t2).parameters
        id).prev_value = v1 ∧
    ((data_manager_update (data_manager_update dm id v1 s1 t1) id v2 s2 t2).parameters
        id).is_valid = true := by
  have hguard : ¬ (id = PARAM_NONE ∨ id ≥ PARAM_MAX) := by
    push_neg
    exact ⟨h0, by omega⟩
  simp [data_manager_update, hinit, hguard, Function.update_same]

/-- Witness for the amended claim C3: updates (value 10, ts 100) then
(value 20, ts 50) to identity 1 leave value 20, timestamp 50. -/
theorem data_manager_update_last_arrival_wins_witness :
    (data_manager_init.initialized = true ∧ 1 ≠ PARAM_NONE ∧ 1 < PARAM_MAX) ∧
    ((data_manager_update (data_manager_update data_manager_init 1 10 1 100)
        1 20 2 50).parameters 1).value = 20 ∧
    ((data_manager_update (data_manager_update data_manager_init 1 10 1 100)
        1 20 2 50).parameters 1).timestamp_ms = 50 ∧
    ((data_manager_update (data_manager_update data_manager_init 1 10 1 100)
        1 20 2 50).parameters 1).source = 2 ∧
    ((data_manager_update (data_manager_update data_manager_init 1 10 1 100)
        1 20 2 50).parameters 1).prev_value = 10 ∧
    ((data_manager_update (data_manager_update data_manager_init 1 10 1 100)
        1 20 2 50).parameters 1).is_valid = true :=
  ⟨⟨rfl, by decide, by decide⟩,
    data_manager_update_last_arrival_wins data_manager_init 1 10 20 1 2 100 50
      rfl (by decide) (by decide)⟩

/-! ### Watch-list manager state and update (watch_list_manager.cpp) -/

structure watch_list_manager_t where
  items : List watch_item_t
  data_manager : Option data_manager_t
  current_page : Nat
  initialized : Bool

/-- Default entry used only to totalize list indexing in statements. -/
def watch_item_dflt : watch_item_t :=
  { param_id := 0, widget_type := 0, page := 0, position := 0, decimal_places := 0,
    warn_low := 0, warn_high := 0, crit_low := 0, crit_high := 0,
    gauge_min := 0, gauge_max := 0, enabled := false, current_alert := .none }

/-- watch_list_update (lines 536-550): recompute the severity of every
enabled entry; an enabled entry with no valid value in the parameter store
gets ALERT_NONE; disabled entries are skipped.  The current_time_ms argument
is unused, as in the C code. -/
def watch_list_update (wlm : watch_list_manager_t) (current_time_ms : Nat) :
    watch_list_manager_t :=
  match wlm.data_manager with
  | none => wlm
  | some dm =>
    if ¬ wlm.initialized then wlm
    else
      { wlm with
        items := wlm.items.map (fun item =>
          if ¬ item.enabled then item
          else
            match data_manager_get dm item.param_id with
            | some value => { item with current_alert := check_alert_level item value }
            | none => { item with current_alert := .none }) }

/-- Claim C10: for every enabled watch item whose parameter has no valid
value in the parameter store, watch_list_update sets severity ALERT_NONE
instead of retaining the previous severity; disabled items are left
unchanged. -/
theorem watch_list_update_stale (wlm : watch_list_manager_t) (dm : data_manager_t)
    (t i : Nat) (hdm : wlm.data_manager = some dm) (hinit : wlm.initialized = true)
    (hi : i < wlm.items.length) :
    ((wlm.items.getD i watch_item_dflt).enabled = true →
      data_manager_get dm (wlm.items.getD i watch_item_dflt).param_id = none →
      (watch_list_update wlm t).items.getD i watch_item_dflt =
        { wlm.items.getD i watch_item_dflt with current_alert := .none }) ∧
    ((wlm.items.getD i watch_item_dflt).enabled = false →
      (watch_list_update wlm t).items.getD i watch_item_dflt =
        wlm.items.getD i watch_item_dflt) := by
  have hmap : (watch_list_update wlm t).items = wlm.items.map (fun item =>
      if ¬ item.enabled then item
      else
        match data_manager_get dm item.param_id with
        | some value => { item with current_alert := check_alert_level item value }
        | none => { item with current_alert := .none }) := by
    rw [watch_list_update, hdm]
    simp [hinit]
  constructor
  · intro hen hnone
    rw [hmap, List.getD_eq_getElem _ _ (by simpa using hi), List.getElem_map,
      ← List.getD_eq_getElem _ watch_item_dflt hi]
    rw [if_neg (by rw [hen]; simp), hnone]
  · intro hen
    rw [hmap, List.getD_eq_getElem _ _ (by simpa using hi), List.getElem_map,
      ← List.getD_eq_getElem _ watch_item_dflt hi]
    rw [if_pos (by rw [hen]; simp)]

/-- Concrete store for the C10 witness: identity 1 updated then invalidated. -/
def dm_c10 : data_manager_t :=
  data_manager_invalidate (data_manager_update data_manager_init 1 5 1 10) 1

/-- Enabled item on identity 1 carrying a stale CRITICAL severity. -/
def item_c10_en : watch_item_t :=
  { watch_item_dflt with
    param_id := 1
    enabled := true
    current_alert := .critical }

/-- Disabled item carrying a WARNING severity. -/
def item_c10_dis : watch_item_t :=
  { watch_item_dflt with
    param_id := 1
    enabled := false
    current_alert := .warning }

/-- Concrete watch list for the C10 witness. -/
def wlm_c10 : watch_list_manager_t :=
  { items := [item_c10_en, item_c10_dis]
    data_manager := some dm_c10
    current_page := 0
    initialized := true }

/-- Witness for claim C10: after the explicit invalidate, updating the watch
list resets the enabled item to ALERT_NONE and leaves the disabled one at
WARNING. -/
theorem watch_list_update_stale_witness :
    (wlm_c10.data_manager = some dm_c10 ∧ wlm_c10.initialized = true ∧
      0 < wlm_c10.items.length ∧ 1 < wlm_c10.items.length ∧
      (wlm_c10.items.getD 0 watch_item_dflt).enabled = true ∧
      data_manager_get dm_c10 (wlm_c10.items.getD 0 watch_item_dflt).param_id = none ∧
      (wlm_c10.items.getD 1 watch_item_dflt).enabled = false) ∧
    (watch_list_update wlm_c10 0).items.getD 0 watch_item_dflt =
      { wlm_c10.items.getD 0 watch_item_dflt with current_alert := .none } ∧
    (watch_list_update wlm_c10 0).items.getD 1 watch_item_dflt =
      wlm_c10.items.getD 1 watch_item_dflt :=
  ⟨⟨rfl, rfl, by decide, by decide, by decide, by decide, by decide⟩,
   (watch_list_update_stale wlm_c10 dm_c10 0 0 rfl rfl (by decide)).1
     (by decide) (by decide),
   (watch_list_update_stale wlm_c10 dm_c10 0 1 rfl rfl (by decide)).2 (by decide)⟩

/-! ### DM1 diagnostic message parsing (j1939_parser.cpp lines 397-445) -/

structure j1939_dtc_t where
  spn : Nat
  fmi : Nat
  oc : Nat
  source_address : Nat
  is_active : Bool
deriving DecidableEq

structure j1939_lamp_status_t where
  protect_lamp : Bool
  amber_warning_lamp : Bool
  red_stop_lamp : Bool
  malfunction_lamp : Bool
deriving DecidableEq

/-- The while-loop of j1939_parse_dm1: scan 4-byte records from offset while
at least 4 bytes remain and the caller-supplied capacity is not reached;
records with spn = 0 and fmi = 0 are skipped.  The conversion-method bit
(bit 7 of the fourth record byte) is not extracted: j1939_dtc_t has no such
field, mirroring the C struct. -/
def j1939_parse_dm1_loop (data : List Nat) (len max_dtcs : Nat) (offset : Nat)
    (acc : List j1939_dtc_t) : List j1939_dtc_t :=
  if h : offset + 4 ≤ len ∧ acc.length < max_dtcs then
    j1939_parse_dm1_loop data len max_dtcs (offset + 4)
      (if (data.getD offset 0 ||| (data.getD (offset + 1) 0 <<< 8) |||
            ((data.getD (offset + 2) 0 &&& 0xE0) <<< 11)) ≠ 0 ∨
          (data.getD (offset + 2) 0 &&& 0x1F) ≠ 0 then
        acc ++ [{ spn := data.getD offset 0 ||| (data.getD (offset + 1) 0 <<< 8) |||
                    ((data.getD (offset + 2) 0 &&& 0xE0) <<< 11),
                  fmi := data.getD (offset + 2) 0 &&& 0x1F,
                  oc := data.getD (offset + 3) 0 &&& 0x7F,
                  source_address := 0, is_active := true }]
      else acc)
  else acc
termination_by len - offset
decreasing_by
  simp_wf
  omega

/-- j1939_parse_dm1: lamp status from the first two bytes, then the DTC
records.  A payload shorter than 2 bytes yields no lamps and no records. -/
def j1939_parse_dm1 (data : List Nat) (len max_dtcs : Nat) :
    Option j1939_lamp_status_t × List j1939_dtc_t :=
  if len < 2 then (none, [])
  else
    (some { protect_lamp := (data.getD 0 0 &&& 0x04) != 0
            amber_warning_lamp := (data.getD 0 0 &&& 0x10) != 0
            red_stop_lamp := (data.getD 1 0 &&& 0x04) != 0
            malfunction_lamp := (data.getD 1 0 &&& 0x10) != 0 },
     j1939_parse_dm1_loop data len max_dtcs 2 [])

/-- One DTC record with the specification's extraction formulas:
spn = b0 | (b1 shifted 8) | ((b2 masked 0xE0) shifted 11), fmi = b2 masked
0x1F, oc = b3 masked 0x7F. -/
def dm1_record_spec (data : List Nat) (off : Nat) : j1939_dtc_t :=
  { spn := data.getD off 0 ||| (data.getD (off + 1) 0 <<< 8) |||
      ((data.getD (off + 2) 0 &&& 0xE0) <<< 11),
    fmi := data.getD (off + 2) 0 &&& 0x1F,
    oc := data.getD (off + 3) 0 &&& 0x7F,
    source_address := 0, is_active := true }

/-- All 4-byte records at offsets off, off+4, ... fully inside the payload,
per the claim's description of records at offsets 2, 6, 10, .... -/
def dm1_records_spec (data : List Nat) (len off : Nat) : List j1939_dtc_t :=
  if off + 4 ≤ len then dm1_record_spec data off :: dm1_records_spec data len (off + 4)
  else []
termination_by len - off
decreasing_by
  simp_wf
  omega

/-- Predicate from the claim: a record is emitted unless spn = 0 and fmi = 0. -/
def dm1_keep (d : j1939_dtc_t) : Bool := !(d.spn == 0 && d.fmi == 0)

theorem dm1_keep_true {d : j1939_dtc_t} (h : d.spn ≠ 0 ∨ d.fmi ≠ 0) :
    dm1_keep d = true := by
  rcases h with h | h <;> simp [dm1_keep, h]

theorem dm1_keep_neg {d : j1939_dtc_t} (h1 : d.spn = 0) (h2 : d.fmi = 0) :
    ¬ dm1_keep d = true := by
  simp [dm1_keep, h1, h2]

theorem parse_dm1_loop_eq (data : List Nat) (len max_dtcs : Nat) :
    ∀ fuel offset acc, len - offset ≤ fuel → acc.length ≤ max_dtcs →
      j1939_parse_dm1_loop data len max_dtcs offset acc =
        acc ++ ((dm1_records_spec data len offset).filter dm1_keep).take
          (max_dtcs - acc.length) := by
  intro fuel
  induction fuel with
  | zero =>
    intro offset acc hf hacc
    have h4 : ¬ (offset + 4 ≤ len) := by omega
    rw [j1939_parse_dm1_loop,
      dif_neg (show ¬ (offset + 4 ≤ len ∧ acc.length < max_dtcs) by omega),
      dm1_records_spec, if_neg h4]
    simp
  | succ n ih =>
    intro offset acc hf hacc
    rw [j1939_parse_dm1_loop, dm1_records_spec]
    by_cases h4 : offset + 4 ≤ len
    · rw [if_pos h4]
      by_cases hcap : acc.length < max_dtcs
      · rw [dif_pos ⟨h4, hcap⟩]
        by_cases hnz : (data.getD offset 0 ||| (data.getD (offset + 1) 0 <<< 8) |||
            ((data.getD (offset + 2) 0 &&& 0xE0) <<< 11)) ≠ 0 ∨
            (data.getD (offset + 2) 0 &&& 0x1F) ≠ 0
        · rw [if_pos hnz, ih (offset + 4) _ (by omega)
            (by simp only [List.length_append, List.length_cons, List.length_nil]; omega)]
          rw [List.filter_cons_of_pos (dm1_keep_true (d := dm1_record_spec data offset) hnz)]
          have hm : max_dtcs - acc.length = (max_dtcs - (acc.length + 1)) + 1 := by omega
          rw [hm, List.take_succ_cons]
          simp only [List.length_append, List.length_cons, List.length_nil, Nat.add_zero,
            List.append_assoc, List.singleton_append]
          rfl
        · rw [if_neg hnz, ih (offset + 4) _ (by omega) hacc]
          push_neg at hnz
          rw [List.filter_cons_of_neg
            (dm1_keep_neg (d := dm1_record_spec data offset) hnz.1 hnz.2)]
      · rw [dif_neg (show ¬ (offset + 4 ≤ len ∧ acc.length < max_dtcs) by omega)]
        have h0 : max_dtcs - acc.length = 0 := by omega
        rw [h0]
        simp
    · rw [if_neg h4,
        dif_neg (show ¬ (offset + 4 ≤ len ∧ acc.length < max_dtcs) by omega)]
      simp

/-- Counterexample for claim C4 as stated: the claim requires each emitted
DTC to carry conversion method = (b3 >> 7) & 1, but j1939_dtc_t has no such
component.  Two DM1 payloads whose single record differs only in the
conversion-method bit (b3 = 0x01 versus b3 = 0x81) give conversion methods
0 and 1 per the claim's formula, yet j1939_parse_dm1 returns identical
results on them, so the emitted record cannot carry that bit. -/
theorem j1939_parse_dm1_counterexample :
    j1939_parse_dm1 [0, 16, 110, 0, 0, 1] 6 10 =
      j1939_parse_dm1 [0, 16, 110, 0, 0, 129] 6 10 ∧
    ((1 : Nat) >>> 7) &&& 1 ≠ ((129 : Nat) >>> 7) &&& 1 := by
  constructor
  · simp [j1939_parse_dm1, j1939_parse_dm1_loop]
    decide
  · decide

/-- Claim C4 (amended: the conversion-method bit is discarded rather than
emitted, since the emitted DTC struct has no such field): j1939_parse_dm1
emits, in payload order, exactly the 4-byte records at offsets 2, 6, 10, ...
with spn = b0 | (b1 << 8) | ((b2 & 0xE0) << 11), fmi = b2 & 0x1F and
occurrence count = b3 & 0x7F, skipping records with spn = 0 and fmi = 0,
capped at the caller-supplied maximum; the returned count equals the number
of emitted records. -/
theorem j1939_parse_dm1_ok (data : List Nat) (len max_dtcs : Nat) :
    (j1939_parse_dm1 data len max_dtcs).2 =
      ((dm1_records_spec data len 2).filter dm1_keep).take max_dtcs ∧
    (j1939_parse_dm1 data len max_dtcs).2.length =
      min max_dtcs ((dm1_records_spec data len 2).filter dm1_keep).length := by
  have hmain : (j1939_parse_dm1 data len max_dtcs).2 =
      ((dm1_records_spec data len 2).filter dm1_keep).take max_dtcs := by
    rw [j1939_parse_dm1]
    by_cases h2 : len < 2
    · rw [if_pos h2, dm1_records_spec, if_neg (by omega)]
      simp
    · rw [if_neg h2]
      simpa using parse_dm1_loop_eq data len max_dtcs len 2 [] (by omega) (by simp)
  refine ⟨hmain, ?_⟩
  rw [hmain]
  simp [List.length_take]

/-! ### NVS storage: fault-code history (nvs_storage.cpp lines 412-461).
Only the fields touched by the checked claims are modelled; the live
dtc_history entries are kept as a list whose length is the C dtc_count. -/

def NVS_MAX_DTC_HISTORY : Nat := 20

structure stored_dtc_t where
  spn : Nat
  fmi : Nat
  source_address : Nat
  first_seen : Nat
  last_seen : Nat
  occurrence_count : Nat
  is_active : Bool
deriving DecidableEq

def dtc_dflt : stored_dtc_t :=
  { spn := 0, fmi := 0, source_address := 0, first_seen := 0, last_seen := 0,
    occurrence_count := 0, is_active := false }

structure nvs_system_state_t where
  clean_shutdown : Bool
  last_timestamp : Nat
  boot_count : Nat
  crash_count : Nat
  pending_distance : Rat
  pending_fuel : Rat
deriving DecidableEq

structure nvs_storage_t where
  dtc_history : List stored_dtc_t
  dtc_dirty : Bool
  system : nvs_system_state_t
  initialized : Bool
deriving DecidableEq

/-- The first index whose entry matches the (spn, fmi, source address)
triple, mirroring the first scan loop of nvs_dtc_store. -/
def dtc_find_match (l : List stored_dtc_t) (spn fmi sa : Nat) : Option Nat :=
  match l with
  | [] => none
  | d :: rest =>
    if d.spn = spn ∧ d.fmi = fmi ∧ d.source_address = sa then some 0
    else (dtc_find_match rest spn fmi sa).map (· + 1)

/-- The replacement scan of nvs_dtc_store: running (oldest_time, oldest_idx)
pair over the entries, starting at (UINT32_MAX, 0), strict less-than so the
first minimum wins. -/
def dtc_oldest_scan (l : List stored_dtc_t) (i bestT bestI : Nat) : Nat × Nat :=
  match l with
  | [] => (bestT, bestI)
  | d :: rest =>
    if d.last_seen < bestT then dtc_oldest_scan rest (i + 1) d.last_seen i
    else dtc_oldest_scan rest (i + 1) bestT bestI

def nvs_dtc_oldest_idx (l : List stored_dtc_t) : Nat :=
  (dtc_oldest_scan l 0 (2 ^ 32 - 1) 0).2

/-- nvs_dtc_store: update a matching entry in place, else append if space
remains, else replace the entry with the smallest last_seen.  (In the C
code the replacement scan runs over all NVS_MAX_DTC_HISTORY array slots; it
is reached only when dtc_count equals that maximum, so all scanned slots are
live entries.) -/
def nvs_dtc_store (st : nvs_storage_t) (spn fmi source_address timestamp : Nat)
    (is_active : Bool) : nvs_storage_t :=
  match dtc_find_match st.dtc_history spn fmi source_address with
  | some i =>
    let d := st.dtc_history.getD i dtc_dflt
    { st with
      dtc_history := st.dtc_history.set i
        { d with last_seen := timestamp,
                 occurrence_count := d.occurrence_count + 1,
                 is_active := is_active }
      dtc_dirty := true }
  | none =>
    if st.dtc_history.length < NVS_MAX_DTC_HISTORY then
      { st with
        dtc_history := st.dtc_history ++
          [{ spn := spn, fmi := fmi, source_address := source_address,
             first_seen := timestamp, last_seen := timestamp,
             occurrence_count := 1, is_active := is_active }]
        dtc_dirty := true }
    else
      { st with
        dtc_history := st.dtc_history.set (nvs_dtc_oldest_idx st.dtc_history)
          { spn := spn, fmi := fmi, source_address := source_address,
            first_seen := timestamp, last_seen := timestamp,
            occurrence_count := 1, is_active := is_active }
        dtc_dirty := true }

/-- A sequence of nvs_dtc_store calls, applied in arrival order. -/
def nvs_dtc_store_all (st : nvs_storage_t)
    (calls : List (Nat × Nat × Nat × Nat × Bool)) : nvs_storage_t :=
  calls.foldl
    (fun s c => nvs_dtc_store s c.1 c.2.1 c.2.2.1 c.2.2.2.1 c.2.2.2.2) st

theorem nvs_dtc_store_length_le (st : nvs_storage_t) (spn fmi sa ts : Nat)
    (act : Bool) (h : st.dtc_history.length ≤ NVS_MAX_DTC_HISTORY) :
    (nvs_dtc_store st spn fmi sa ts act).dtc_history.length ≤ NVS_MAX_DTC_HISTORY := by
  rw [nvs_dtc_store]
  cases hm : dtc_find_match st.dtc_history spn fmi sa with
  | some i => simpa using h
  | none =>
    by_cases hlen : st.dtc_history.length < NVS_MAX_DTC_HISTORY
    · rw [if_pos hlen]
      simp only [List.length_append, List.length_cons, List.length_nil]
      omega
    · rw [if_neg hlen]
      simpa using h

theorem dtc_oldest_scan_spec (l : List stored_dtc_t) :
    ∀ i bestT bestI,
      (dtc_oldest_scan l i bestT bestI).1 ≤ bestT ∧
      (∀ d ∈ l, (dtc_oldest_scan l i bestT bestI).1 ≤ d.last_seen) ∧
      (dtc_oldest_scan l i bestT bestI = (bestT, bestI) ∨
        ∃ k, k < l.length ∧ (dtc_oldest_scan l i bestT bestI).2 = i + k ∧
          (l.getD k dtc_dflt).last_seen = (dtc_oldest_scan l i bestT bestI).1) := by
  induction l with
  | nil =>
    intro i bestT bestI
    exact ⟨Nat.le_refl _, by simp, Or.inl rfl⟩
  | cons d rest ih =>
    intro i bestT bestI
    rw [dtc_oldest_scan]
    by_cases hlt : d.last_seen < bestT
    · rw [if_pos hlt]
      obtain ⟨ih1, ih2, ih3⟩ := ih (i + 1) d.last_seen i
      refine ⟨by omega, ?_, ?_⟩
      · intro d' hd'
        rcases List.mem_cons.mp hd' with rfl | hd'
        · exact ih1
        · exact ih2 d' hd'
      · rcases ih3 with he | ⟨k, hk, hke, hkv⟩
        · refine Or.inr ⟨0, by simp, ?_, ?_⟩
          · rw [he]
            simp
          · rw [he]
            simp
        · exact Or.inr ⟨k + 1, by simpa using hk, by omega, by simpa using hkv⟩
    · rw [if_neg hlt]
      obtain ⟨ih1, ih2, ih3⟩ := ih (i + 1) bestT bestI
      refine ⟨ih1, ?_, ?_⟩
      · intro d' hd'
        rcases List.mem_cons.mp hd' with rfl | hd'
        · omega
        · exact ih2 d' hd'
      · rcases ih3 with he | ⟨k, hk, hke, hkv⟩
        · exact Or.inl he
        · exact Or.inr ⟨k + 1, by simpa using hk, by omega, by simpa using hkv⟩

theorem nvs_dtc_oldest_idx_min (l : List stored_dtc_t) (hne : l ≠ [])
    (hb : ∀ d ∈ l, d.last_seen < 2 ^ 32) :
    nvs_dtc_oldest_idx l < l.length ∧
    ∀ d ∈ l, (l.getD (nvs_dtc_oldest_idx l) dtc_dflt).last_seen ≤ d.last_seen := by
  obtain ⟨h1, h2, h3⟩ := dtc_oldest_scan_spec l 0 (2 ^ 32 - 1) 0
  rcases h3 with he | ⟨k, hk, hke, hkv⟩
  · obtain ⟨d0, rest, rfl⟩ : ∃ d0 rest, l = d0 :: rest := by
      cases l with
      | nil => exact absurd rfl hne
      | cons a r => exact ⟨a, r, rfl⟩
    constructor
    · rw [nvs_dtc_oldest_idx, he]
      simp
    · intro d hd
      have hd0 : (dtc_oldest_scan (d0 :: rest) 0 (2 ^ 32 - 1) 0).1 ≤ d0.last_seen :=
        h2 d0 (by simp)
      have hd0b : d0.last_seen < 2 ^ 32 := hb d0 (by simp)
      have : (d0 :: rest).getD (nvs_dtc_oldest_idx (d0 :: rest)) dtc_dflt = d0 := by
        rw [nvs_dtc_oldest_idx, he]
        simp
      rw [this]
      have := h2 d hd
      rw [he] at hd0 this
      simp only at hd0 this
      omega
  · constructor
    · rw [nvs_dtc_oldest_idx, hke]
      omega
    · intro d hd
      rw [nvs_dtc_oldest_idx, hke]
      simp only [Nat.zero_add]
      rw [hkv]
      exact h2 d hd

/-- Claim C8: (1) after any sequence of nvs_dtc_store calls from a state
within the cap, the history holds at most 20 entries; (2) a store whose
(spn, fmi, source address) triple matches an existing entry updates that
entry's last_seen, occurrence count and active flag in place, keeping the
count unchanged; (3) a store into a full table with no match replaces an
entry whose last_seen is minimal among all stored entries. -/
theorem nvs_dtc_history_ok :
    (∀ (st : nvs_storage_t) (calls : List (Nat × Nat × Nat × Nat × Bool)),
      st.dtc_history.length ≤ NVS_MAX_DTC_HISTORY →
      (nvs_dtc_store_all st calls).dtc_history.length ≤ NVS_MAX_DTC_HISTORY) ∧
    (∀ (st : nvs_storage_t) (spn fmi sa ts : Nat) (act : Bool) (i : Nat),
      dtc_find_match st.dtc_history spn fmi sa = some i →
      (nvs_dtc_store st spn fmi sa ts act).dtc_history =
        st.dtc_history.set i
          { st.dtc_history.getD i dtc_dflt with
            last_seen := ts,
            occurrence_count := (st.dtc_history.getD i dtc_dflt).occurrence_count + 1,
            is_active := act } ∧
      (nvs_dtc_store st spn fmi sa ts act).dtc_history.length =
        st.dtc_history.length) ∧
    (∀ (st : nvs_storage_t) (spn fmi sa ts : Nat) (act : Bool),
      dtc_find_match st.dtc_history spn fmi sa = none →
      st.dtc_history.length = NVS_MAX_DTC_HISTORY →
      (∀ d ∈ st.dtc_history, d.last_seen < 2 ^ 32) →
      ∃ i < NVS_MAX_DTC_HISTORY,
        (∀ d ∈ st.dtc_history,
          (st.dtc_history.getD i dtc_dflt).last_seen ≤ d.last_seen) ∧
        (nvs_dtc_store st spn fmi sa ts act).dtc_history =
          st.dtc_history.set i
            { spn := spn, fmi := fmi, source_address := sa, first_seen := ts,
              last_seen := ts, occurrence_count := 1, is_active := act }) := by
  refine ⟨?_, ?_, ?_⟩
  · intro st calls
    induction calls generalizing st with
    | nil =>
      intro h
      simpa [nvs_dtc_store_all] using h
    | cons c rest ih =>
      intro h
      exact ih _ (nvs_dtc_store_length_le st c.1 c.2.1 c.2.2.1 c.2.2.2.1 c.2.2.2.2 h)
  · intro st spn fmi sa ts act i hm
    constructor
    · simp [nvs_dtc_store, hm]
    · simp [nvs_dtc_store, hm]
  · intro st spn fmi sa ts act hm hfull hb
    have hne : st.dtc_history ≠ [] := by
      intro hnil
      rw [hnil] at hfull
      simp [NVS_MAX_DTC_HISTORY] at hfull
    obtain ⟨hidx, hmin⟩ := nvs_dtc_oldest_idx_min st.dtc_history hne hb
    refine ⟨nvs_dtc_oldest_idx st.dtc_history, hfull ▸ hidx, hmin, ?_⟩
    have hnolt : ¬ st.dtc_history.length < NVS_MAX_DTC_HISTORY := by
      rw [hfull]
      exact Nat.lt_irrefl _
    simp [nvs_dtc_store, hm, hnolt]

def nvs_system_zero : nvs_system_state_t :=
  { clean_shutdown := false, last_timestamp := 0, boot_count := 0, crash_count := 0,
    pending_distance := 0, pending_fuel := 0 }

/-- Entry stored in the single-entry C8 witness state. -/
def dtc_c8_a : stored_dtc_t :=
  { spn := 100, fmi := 1, source_address := 0, first_seen := 5,
    last_seen := 5, occurrence_count := 1, is_active := true }

/-- Single-entry storage used by the C8 witness. -/
def st_c8_one : nvs_storage_t :=
  { dtc_history := [dtc_c8_a], dtc_dirty := false, system := nvs_system_zero,
    initialized := true }

/-- Entry template for the full C8 witness state. -/
def dtc_c8_entry (k : Nat) : stored_dtc_t :=
  { spn := 1000 + k, fmi := 3, source_address := 0, first_seen := k,
    last_seen := 100 + k, occurrence_count := 1, is_active := true }

/-- Full (20-entry) storage used by the C8 witness; entry 0 has the smallest
last_seen. -/
def st_c8_full : nvs_storage_t :=
  { dtc_history := (List.range 20).map dtc_c8_entry, dtc_dirty := false,
    system := nvs_system_zero, initialized := true }

/-- Witness for claim C8, exercising all three parts at concrete inputs. -/
theorem nvs_dtc_history_ok_witness :
    (st_c8_one.dtc_history.length ≤ NVS_MAX_DTC_HISTORY ∧
      (nvs_dtc_store_all st_c8_one [(7, 7, 7, 9, true)]).dtc_history.length ≤
        NVS_MAX_DTC_HISTORY) ∧
    (dtc_find_match st_c8_one.dtc_history 100 1 0 = some 0 ∧
      (nvs_dtc_store st_c8_one 100 1 0 42 false).dtc_history =
        st_c8_one.dtc_history.set 0
          { st_c8_one.dtc_history.getD 0 dtc_dflt with
            last_seen := 42,
            occurrence_count :=
              (st_c8_one.dtc_history.getD 0 dtc_dflt).occurrence_count + 1,
            is_active := false } ∧
      (nvs_dtc_store st_c8_one 100 1 0 42 false).dtc_history.length =
        st_c8_one.dtc_history.length) ∧
    (dtc_find_match st_c8_full.dtc_history 7 7 7 = none ∧
      st_c8_full.dtc_history.length = NVS_MAX_DTC_HISTORY ∧
      (∀ d ∈ st_c8_full.dtc_history, d.last_seen < 2 ^ 32) ∧
      ∃ i < NVS_MAX_DTC_HISTORY,
        (∀ d ∈ st_c8_full.dtc_history,
          (st_c8_full.dtc_history.getD i dtc_dflt).last_seen ≤ d.last_seen) ∧
        (nvs_dtc_store st_c8_full 7 7 7 9 true).dtc_history =
          st_c8_full.dtc_history.set i
            { spn := 7, fmi := 7, source_address := 7, first_seen := 9,
              last_seen := 9, occurrence_count := 1, is_active := true }) :=
  ⟨⟨by decide, nvs_dtc_history_ok.1 st_c8_one [(7, 7, 7, 9, true)] (by decide)⟩,
   ⟨by decide, nvs_dtc_history_ok.2.1 st_c8_one 100 1 0 42 false 0 (by decide)⟩,
   ⟨by decide, by decide, by decide,
    nvs_dtc_history_ok.2.2 st_c8_full 7 7 7 9 true (by decide) (by decide)
      (by decide)⟩⟩

/-! ### NVS system-state persistence (nvs_storage.cpp, ESP32 build:
nvs_storage_init lines 64-97, system-namespace load in lines 156-164,
nvs_system_shutdown lines 529-543).  The ESP32 Preferences key-value flash
is modelled as a record of optional keys of the system namespace; a get with
default returns the stored value when the key is present, else the default,
matching the Preferences API.  The uint32 wraparound of the boot and crash
counters (reachable only after 2^32 boots) is abstracted away. -/

structure system_flash_t where
  clean_shut : Option Bool
  last_time : Option Nat
  boot_count : Option Nat
  crash_count : Option Nat
  pend_dist : Option Rat
  pend_fuel : Option Rat
deriving DecidableEq

/-- Load of the system namespace: each key read with its default; the
clean_shut key defaults to true when absent. -/
def nvs_load_system (f : system_flash_t) : nvs_system_state_t :=
  { clean_shutdown := f.clean_shut.getD true
    last_timestamp := f.last_time.getD 0
    boot_count := f.boot_count.getD 0
    crash_count := f.crash_count.getD 0
    pending_distance := f.pend_dist.getD 0
    pending_fuel := f.pend_fuel.getD 0 }

/-- nvs_storage_init restricted to the system namespace: load, increment
boot_count, increment crash_count when the loaded clean_shutdown flag is
false, re-arm clean_shutdown to false, and write boot_count, crash_count and
clean_shut = false back to flash.  The trip, lifetime, settings and DTC
namespaces are also loaded by the C function but play no part in this
claim. -/
def nvs_storage_init_sys (f : system_flash_t) :
    nvs_system_state_t × system_flash_t :=
  let sys0 := nvs_load_system f
  let sys1 := { sys0 with boot_count := sys0.boot_count + 1 }
  let sys2 := if ¬ sys1.clean_shutdown then
      { sys1 with crash_count := sys1.crash_count + 1 }
    else sys1
  let sys3 := { sys2 with clean_shutdown := false }
  (sys3,
   { f with
     boot_count := some sys3.boot_count
     crash_count := some sys3.crash_count
     clean_shut := some false })

/-- nvs_system_shutdown: set the in-memory flag, write clean_shut = true to
flash, then emergency-save (which writes no system-namespace keys). -/
def nvs_system_shutdown_sys (s : nvs_system_state_t) (f : system_flash_t) :
    nvs_system_state_t × system_flash_t :=
  ({ s with clean_shutdown := true }, { f with clean_shut := some true })

/-- Claim C9: starting from any flash state and booting once, (A) if
nvs_system_shutdown is called before the power cycle, the next
nvs_storage_init loads clean_shutdown = true and leaves crash_count
unchanged; (B) if it is not called, the next init loads
clean_shutdown = false and increments crash_count by one; in both cases
boot_count is incremented and clean_shutdown is re-armed to false on flash
for the next boot. -/
theorem nvs_clean_shutdown_protocol (f : system_flash_t) :
    (let p1 := nvs_storage_init_sys f
     let p2 := nvs_system_shutdown_sys p1.1 p1.2
     let p3 := nvs_storage_init_sys p2.2
     (nvs_load_system p2.2).clean_shutdown = true ∧
     p3.1.crash_count = p2.1.crash_count ∧
     p3.1.boot_count = p2.1.boot_count + 1 ∧
     p3.1.clean_shutdown = false ∧
     p3.2.clean_shut = some false) ∧
    (let p1 := nvs_storage_init_sys f
     let p4 := nvs_storage_init_sys p1.2
     (nvs_load_system p1.2).clean_shutdown = false ∧
     p4.1.crash_count = p1.1.crash_count + 1 ∧
     p4.1.boot_count = p1.1.boot_count + 1 ∧
     p4.1.clean_shutdown = false ∧
     p4.2.clean_shut = some false) := by
  constructor <;>
    simp [nvs_storage_init_sys, nvs_system_shutdown_sys, nvs_load_system]

/-! ### J1708 receive state machine and message parse
(j1708_parser.cpp lines 36-67 and 112-251) -/

def J1708_MAX_MESSAGE_LENGTH : Nat := 21

def J1708_MIN_MESSAGE_LENGTH : Nat := 2

def J1708_MAX_PIDS : Nat := 10

def J1708_INTER_BYTE_TIMEOUT_MS : Nat := 10

/-- Unsigned 32-bit subtraction a - b as computed by the C code on uint32
operands. -/
def u32_sub (a b : Nat) : Nat :=
  (a % 2 ^ 32 + (2 ^ 32 - b % 2 ^ 32)) % 2 ^ 32

theorem u32_sub_eq {a b : Nat} (h1 : b ≤ a) (h2 : a < 2 ^ 32) :
    u32_sub a b = a - b := by
  unfold u32_sub
  omega

inductive j1708_rx_state_t
  | idle
  | receiving
  | complete
deriving DecidableEq

/-- Receiver context; the live prefix of the C byte buffer is kept as a
list, whose length is the C buffer_index. -/
structure j1708_parser_context_t where
  state : j1708_rx_state_t
  buffer : List Nat
  last_byte_time_ms : Nat
  messages_received : Nat
  checksum_errors : Nat
  parse_errors : Nat
deriving DecidableEq

def j1708_parser_init : j1708_parser_context_t :=
  { state := .idle, buffer := [], last_byte_time_ms := 0,
    messages_received := 0, checksum_errors := 0, parse_errors := 0 }

/-- Tail of j1708_receive_byte: append the byte to the buffer and enter
receiving, or reset on overflow counting a parse error. -/
def j1708_store_byte (ctx : j1708_parser_context_t) (byte timestamp_ms : Nat) :
    j1708_parser_context_t × Bool :=
  if ctx.buffer.length < J1708_MAX_MESSAGE_LENGTH then
    ({ ctx with
        buffer := ctx.buffer ++ [byte]
        last_byte_time_ms := timestamp_ms
        state := .receiving }, false)
  else
    ({ ctx with
        state := .idle
        buffer := []
        parse_errors := ctx.parse_errors + 1 }, false)

/-- j1708_receive_byte (lines 133-175): in receiving, an inter-byte gap
longer than 10 ms terminates the current buffer; a valid terminated buffer
moves to complete WITHOUT consuming the current byte; otherwise the buffer
restarts (counting a checksum error when it was long enough) and the byte is
stored.  In complete, bytes are blocked until the message is drained. -/
def j1708_receive_byte (ctx : j1708_parser_context_t) (byte timestamp_ms : Nat) :
    j1708_parser_context_t × Bool :=
  if ctx.state = .receiving ∧
      u32_sub timestamp_ms ctx.last_byte_time_ms > J1708_INTER_BYTE_TIMEOUT_MS then
    if ctx.buffer.length ≥ J1708_MIN_MESSAGE_LENGTH then
      if j1708_validate_checksum ctx.buffer then
        ({ ctx with
            state := .complete
            messages_received := ctx.messages_received + 1 }, true)
      else
        j1708_store_byte
          { ctx with
            checksum_errors := ctx.checksum_errors + 1
            state := .idle
            buffer := [] } byte timestamp_ms
    else
      j1708_store_byte { ctx with state := .idle, buffer := [] } byte timestamp_ms
  else if ctx.state = .complete then (ctx, true)
  else j1708_store_byte ctx byte timestamp_ms

/-- PID length table (pid_lengths array): 0 means a length-prefix follows.
Both fall-through branches of the C lookup (extended 192-254 band and
unknown PIDs) return 0. -/
def pid_lengths : List (Nat × Nat) :=
  [(84, 1), (85, 1), (86, 1), (91, 1), (92, 1), (96, 1), (97, 1), (100, 1),
   (102, 1), (105, 1), (108, 1), (110, 1), (168, 1), (171, 1), (174, 1),
   (175, 1), (177, 2), (178, 1), (183, 2), (184, 2), (190, 2), (191, 2),
   (194, 0), (195, 0), (233, 0), (234, 0), (245, 4), (247, 4)]

def j1708_get_pid_length (pid : Nat) : Nat :=
  match pid_lengths.find? (fun e => e.1 == pid) with
  | some e => e.2
  | none => 0

structure j1587_parameter_t where
  pid : Nat
  data : List Nat
  data_length : Nat
  is_valid : Bool
deriving DecidableEq

structure j1708_message_t where
  mid : Nat
  raw_data : List Nat
  raw_length : Nat
  params : List j1587_parameter_t
  param_count : Nat
  checksum_valid : Bool
deriving DecidableEq

/-- One parsed parameter: data copied only when 0 < len and len fits the
8-byte field (otherwise is_valid stays false, as in the C struct). -/
def j1708_mk_param (pid plen : Nat) (bytes : List Nat) : j1587_parameter_t :=
  { pid := pid
    data := if 0 < plen ∧ plen ≤ 8 then bytes.take plen else []
    data_length := plen
    is_valid := decide (0 < plen ∧ plen ≤ 8) }

/-- Parameter scan loop of j1708_parse_message: read a PID, resolve its
length (explicit length prefix when the table says variable), stop when the
remaining bytes before the checksum are insufficient, else append the
parameter and continue. -/
def j1708_parse_params (data : List Nat) (data_end : Nat) (offset : Nat)
    (acc : List j1587_parameter_t) : List j1587_parameter_t :=
  if h : offset < data_end ∧ acc.length < J1708_MAX_PIDS then
    let pid := data.getD offset 0
    let tlen := j1708_get_pid_length pid
    if tlen = 0 then
      if offset + 1 ≥ data_end then acc
      else
        let plen := data.getD (offset + 1) 0
        if offset + 2 + plen > data_end then acc
        else
          j1708_parse_params data data_end (offset + 2 + plen)
            (acc ++ [j1708_mk_param pid plen (data.drop (offset + 2))])
    else
      if offset + 1 + tlen > data_end then acc
      else
        j1708_parse_params data data_end (offset + 1 + tlen)
          (acc ++ [j1708_mk_param pid tlen (data.drop (offset + 1))])
  else acc
termination_by data_end - offset
decreasing_by
  all_goals simp_wf
  all_goals omega

/-- j1708_parse_message (lines 196-251); failure (short frame or bad
checksum) is none. -/
def j1708_parse_message (data : List Nat) : Option j1708_message_t :=
  if data.length < J1708_MIN_MESSAGE_LENGTH then none
  else if ¬ j1708_validate_checksum data then none
  else
    let params := j1708_parse_params data (data.length - 1) 1 []
    some { mid := data.getD 0 0
           raw_data := data
           raw_length := data.length
           params := params
           param_count := params.length
           checksum_valid := true }

/-- j1708_get_message (lines 177-190): drain the completed buffer and reset
the receiver. -/
def j1708_get_message (ctx : j1708_parser_context_t) :
    j1708_parser_context_t × Option j1708_message_t :=
  if ctx.state ≠ .complete then (ctx, none)
  else
    ({ ctx with state := .idle, buffer := [] }, j1708_parse_message ctx.buffer)

/-- Feed a sequence of (byte, timestamp) pairs to the receiver. -/
def j1708_feed (ctx : j1708_parser_context_t) (bts : List (Nat × Nat)) :
    j1708_parser_context_t :=
  bts.foldl (fun c bt => (j1708_receive_byte c bt.1 bt.2).1) ctx

/-- Within-message timing: consecutive bytes at most 10 ms apart. -/
def gap10 (a b : Nat) : Prop := a ≤ b ∧ b - a ≤ 10

theorem j1708_feed_absorb (bts : List (Nat × Nat)) :
    ∀ ctx : j1708_parser_context_t, ctx.state = .receiving →
    List.Chain' gap10 (ctx.last_byte_time_ms :: bts.map Prod.snd) →
    (∀ t ∈ bts.map Prod.snd, t < 2 ^ 32) →
    ctx.buffer.length + bts.length ≤ J1708_MAX_MESSAGE_LENGTH →
    (j1708_feed ctx bts).state = .receiving ∧
    (j1708_feed ctx bts).buffer = ctx.buffer ++ bts.map Prod.fst ∧
    (j1708_feed ctx bts).last_byte_time_ms =
      (bts.map Prod.snd).getLastD ctx.last_byte_time_ms ∧
    (j1708_feed ctx bts).messages_received = ctx.messages_received := by
  induction bts with
  | nil =>
    intro ctx hs _ _ _
    exact ⟨hs, by simp [j1708_feed], by simp [j1708_feed], by simp [j1708_feed]⟩
  | cons bt rest ih =>
    intro ctx hs hchain hts hcap
    simp only [List.map_cons, List.chain'_cons] at hchain
    have hb2 : bt.2 < 2 ^ 32 := hts bt.2 (by simp)
    have hgap : ¬ (ctx.state = .receiving ∧
        u32_sub bt.2 ctx.last_byte_time_ms > J1708_INTER_BYTE_TIMEOUT_MS) := by
      rw [u32_sub_eq hchain.1.1 hb2]
      rw [J1708_INTER_BYTE_TIMEOUT_MS]
      intro hc
      have := hchain.1.2
      omega
    have hncomp : ¬ ctx.state = .complete := by
      rw [hs]
      intro hc
      exact absurd hc (by decide)
    have hroom : ctx.buffer.length < J1708_MAX_MESSAGE_LENGTH := by
      rw [J1708_MAX_MESSAGE_LENGTH]
      simp only [List.length_cons] at hcap
      rw [J1708_MAX_MESSAGE_LENGTH] at hcap
      omega
    have hstep : j1708_feed ctx (bt :: rest) =
        j1708_feed ({ ctx with
          buffer := ctx.buffer ++ [bt.1]
          last_byte_time_ms := bt.2
          state := .receiving }) rest := by
      show j1708_feed (j1708_receive_byte ctx bt.1 bt.2).1 rest = _
      rw [j1708_receive_byte, if_neg hgap, if_neg hncomp, j1708_store_byte,
        if_pos hroom]
    rw [hstep]
    obtain ⟨ih1, ih2, ih3, ih4⟩ := ih { ctx with
        buffer := ctx.buffer ++ [bt.1]
        last_byte_time_ms := bt.2
        state := .receiving } rfl hchain.2
      (fun t ht => hts t (by simp [ht]))
      (by simp only [List.length_append, List.length_cons, List.length_nil]
          simp only [List.length_cons] at hcap
          omega)
    refine ⟨ih1, ?_, ?_, ih4⟩
    · rw [ih2]
      simp
    · rw [ih3]
      show (List.map Prod.snd rest).getLastD bt.2 =
        ((bt :: rest).map Prod.snd).getLastD ctx.last_byte_time_ms
      rw [List.map_cons, List.getLastD_cons]

theorem j1708_feed_idle (ctx : j1708_parser_context_t) (bt : Nat × Nat)
    (rest : List (Nat × Nat))
    (hs : ctx.state = .idle) (hbuf : ctx.buffer = [])
    (hchain : List.Chain' gap10 ((bt :: rest).map Prod.snd))
    (hts : ∀ t ∈ (bt :: rest).map Prod.snd, t < 2 ^ 32)
    (hcap : (bt :: rest).length ≤ J1708_MAX_MESSAGE_LENGTH) :
    (j1708_feed ctx (bt :: rest)).state = .receiving ∧
    (j1708_feed ctx (bt :: rest)).buffer = (bt :: rest).map Prod.fst ∧
    (j1708_feed ctx (bt :: rest)).last_byte_time_ms =
      ((bt :: rest).map Prod.snd).getLastD 0 ∧
    (j1708_feed ctx (bt :: rest)).messages_received = ctx.messages_received := by
  have hgap : ¬ (ctx.state = .receiving ∧
      u32_sub bt.2 ctx.last_byte_time_ms > J1708_INTER_BYTE_TIMEOUT_MS) := by
    rw [hs]
    intro hc
    exact absurd hc.1 (by decide)
  have hncomp : ¬ ctx.state = .complete := by
    rw [hs]
    intro hc
    exact absurd hc (by decide)
  have hroom : ctx.buffer.length < J1708_MAX_MESSAGE_LENGTH := by
    rw [hbuf, J1708_MAX_MESSAGE_LENGTH]
    simp
  have hstep : j1708_feed ctx (bt :: rest) =
      j1708_feed ({ ctx with
        buffer := ctx.buffer ++ [bt.1]
        last_byte_time_ms := bt.2
        state := .receiving }) rest := by
    show j1708_feed (j1708_receive_byte ctx bt.1 bt.2).1 rest = _
    rw [j1708_receive_byte, if_neg hgap, if_neg hncomp, j1708_store_byte,
      if_pos hroom]
  rw [hstep]
  obtain ⟨h1, h2, h3, h4⟩ := j1708_feed_absorb rest { ctx with
      buffer := ctx.buffer ++ [bt.1]
      last_byte_time_ms := bt.2
      state := .receiving } rfl
    (by simpa using hchain)
    (fun t ht => hts t (by simp [ht]))
    (by show (ctx.buffer ++ [bt.1]).length + rest.length ≤ J1708_MAX_MESSAGE_LENGTH
        rw [hbuf]
        simp only [List.nil_append, List.length_cons, List.length_nil,
          J1708_MAX_MESSAGE_LENGTH] at hcap ⊢
        omega)
  refine ⟨h1, ?_, ?_, by rw [h4]⟩
  · rw [h2, hbuf]
    simp
  · rw [h3]
    show (List.map Prod.snd rest).getLastD bt.2 = ((bt :: rest).map Prod.snd).getLastD 0
    rw [List.map_cons, List.getLastD_cons]

theorem j1708_gap_completes (ctx : j1708_parser_context_t) (b t : Nat)
    (hs : ctx.state = .receiving)
    (hlen : J1708_MIN_MESSAGE_LENGTH ≤ ctx.buffer.length)
    (hck : j1708_validate_checksum ctx.buffer = true)
    (h1 : ctx.last_byte_time_ms ≤ t) (h2 : t - ctx.last_byte_time_ms > 10)
    (ht : t < 2 ^ 32) :
    j1708_receive_byte ctx b t =
      ({ ctx with
          state := .complete
          messages_received := ctx.messages_received + 1 }, true) := by
  rw [j1708_receive_byte,
    if_pos ⟨hs, by rw [u32_sub_eq h1 ht, J1708_INTER_BYTE_TIMEOUT_MS]; omega⟩,
    if_pos hlen, if_pos hck]

theorem j1708_complete_blocks (ctx : j1708_parser_context_t)
    (hc : ctx.state = .complete) (b t : Nat) :
    j1708_receive_byte ctx b t = (ctx, true) := by
  rw [j1708_receive_byte,
    if_neg (by intro hx; rw [hc] at hx; exact absurd hx.1 (by decide)),
    if_pos hc]

theorem j1708_get_message_complete (ctx : j1708_parser_context_t)
    (hc : ctx.state = .complete)
    (hlen : J1708_MIN_MESSAGE_LENGTH ≤ ctx.buffer.length)
    (hck : j1708_validate_checksum ctx.buffer = true) :
    (j1708_get_message ctx).1 = { ctx with state := .idle, buffer := [] } ∧
    ∃ msg, (j1708_get_message ctx).2 = some msg ∧
      msg.raw_data = ctx.buffer ∧ msg.mid = ctx.buffer.getD 0 0 ∧
      msg.checksum_valid = true := by
  rw [j1708_get_message, if_neg (by rw [hc]; simp)]
  refine ⟨rfl, ?_⟩
  rw [j1708_parse_message, if_neg (by omega), if_neg (by rw [hck]; simp)]
  exact ⟨_, rfl, rfl, rfl, rfl⟩

/-- Claim C6: feeding the receiver two valid messages (length in [2, 21],
correct checksum) where the first byte of the second message arrives more
than 10 ms after the last byte of the first decodes both messages.  On the
gap-crossing byte j1708_receive_byte reports true and moves to complete
without consuming that byte; while complete, incoming bytes leave the
context unchanged; draining returns the first message; after the deferred
byte is re-submitted and the rest of the second message arrives, a later
silent gap completes the second message, which drains as well. -/
theorem j1708_framer_gap (bt1 : Nat × Nat) (rest1 : List (Nat × Nat))
    (b2h t2h : Nat) (rest2 : List (Nat × Nat)) (bp tp : Nat)
    (A B C D E : j1708_parser_context_t) (r1 r2 : Bool)
    (hlen1 : J1708_MIN_MESSAGE_LENGTH ≤ (bt1 :: rest1).length)
    (hcap1 : (bt1 :: rest1).length ≤ J1708_MAX_MESSAGE_LENGTH)
    (hck1 : j1708_validate_checksum ((bt1 :: rest1).map Prod.fst) = true)
    (hchain1 : List.Chain' gap10 ((bt1 :: rest1).map Prod.snd))
    (hts1 : ∀ t ∈ (bt1 :: rest1).map Prod.snd, t < 2 ^ 32)
    (hgap1 : ((bt1 :: rest1).map Prod.snd).getLastD 0 ≤ t2h)
    (hgap2 : t2h - ((bt1 :: rest1).map Prod.snd).getLastD 0 > 10)
    (hlen2 : J1708_MIN_MESSAGE_LENGTH ≤ ((b2h, t2h) :: rest2).length)
    (hcap2 : ((b2h, t2h) :: rest2).length ≤ J1708_MAX_MESSAGE_LENGTH)
    (hck2 : j1708_validate_checksum (((b2h, t2h) :: rest2).map Prod.fst) = true)
    (hchain2 : List.Chain' gap10 (((b2h, t2h) :: rest2).map Prod.snd))
    (hts2 : ∀ t ∈ ((b2h, t2h) :: rest2).map Prod.snd, t < 2 ^ 32)
    (hprobe1 : ((((b2h, t2h) :: rest2)).map Prod.snd).getLastD 0 ≤ tp)
    (hprobe2 : tp - ((((b2h, t2h) :: rest2)).map Prod.snd).getLastD 0 > 10)
    (htp : tp < 2 ^ 32)
    (hA : A = j1708_feed j1708_parser_init (bt1 :: rest1))
    (hB : (B, r1) = j1708_receive_byte A b2h t2h)
    (hC : C = (j1708_get_message B).1)
    (hD : D = j1708_feed C ((b2h, t2h) :: rest2))
    (hE : (E, r2) = j1708_receive_byte D bp tp) :
    r1 = true ∧ B.state = .complete ∧
    B.buffer = (bt1 :: rest1).map Prod.fst ∧
    (∀ b t, j1708_receive_byte B b t = (B, true)) ∧
    (∃ msg1, (j1708_get_message B).2 = some msg1 ∧
      msg1.raw_data = (bt1 :: rest1).map Prod.fst ∧
      msg1.checksum_valid = true) ∧
    r2 = true ∧ E.state = .complete ∧
    E.buffer = ((b2h, t2h) :: rest2).map Prod.fst ∧
    (∃ msg2, (j1708_get_message E).2 = some msg2 ∧
      msg2.raw_data = ((b2h, t2h) :: rest2).map Prod.fst ∧
      msg2.checksum_valid = true) := by
  subst hA
  obtain ⟨hA1, hA2, hA3, hA4⟩ :=
    j1708_feed_idle j1708_parser_init bt1 rest1 rfl rfl hchain1 hts1 hcap1
  have ht2h : t2h < 2 ^ 32 := hts2 t2h (by simp)
  have step1 := j1708_gap_completes (j1708_feed j1708_parser_init (bt1 :: rest1))
    b2h t2h hA1
    (by rw [hA2]; simpa using hlen1)
    (by rw [hA2]; exact hck1)
    (by rw [hA3]; exact hgap1)
    (by rw [hA3]; exact hgap2)
    ht2h
  rw [step1] at hB
  injection hB with hBe hre
  subst hBe
  subst hre
  refine ⟨rfl, rfl, ?_, ?_, ?_, ?_⟩
  · show (j1708_feed j1708_parser_init (bt1 :: rest1)).buffer = _
    exact hA2
  · intro b t
    exact j1708_complete_blocks _ rfl b t
  · obtain ⟨hdrain, msg1, hm1, hraw1, hmid1, hckv1⟩ :=
      j1708_get_message_complete _ (rfl :
        ({ j1708_feed j1708_parser_init (bt1 :: rest1) with
            state := .complete
            messages_received :=
              (j1708_feed j1708_parser_init (bt1 :: rest1)).messages_received +
                1 } : j1708_parser_context_t).state = .complete)
      (by show J1708_MIN_MESSAGE_LENGTH ≤
            (j1708_feed j1708_parser_init (bt1 :: rest1)).buffer.length
          rw [hA2]
          simpa using hlen1)
      (by show j1708_validate_checksum
            (j1708_feed j1708_parser_init (bt1 :: rest1)).buffer = true
          rw [hA2]
          exact hck1)
    refine ⟨msg1, hm1, ?_, hckv1⟩
    rw [hraw1]
    show (j1708_feed j1708_parser_init (bt1 :: rest1)).buffer = _
    exact hA2
  · -- second message
    obtain ⟨hdrain, _⟩ :=
      j1708_get_message_complete _ (rfl :
        ({ j1708_feed j1708_parser_init (bt1 :: rest1) with
            state := .complete
            messages_received :=
              (j1708_feed j1708_parser_init (bt1 :: rest1)).messages_received +
                1 } : j1708_parser_context_t).state = .complete)
      (by show J1708_MIN_MESSAGE_LENGTH ≤
            (j1708_feed j1708_parser_init (bt1 :: rest1)).buffer.length
          rw [hA2]
          simpa using hlen1)
      (by show j1708_validate_checksum
            (j1708_feed j1708_parser_init (bt1 :: rest1)).buffer = true
          rw [hA2]
          exact hck1)
    rw [hdrain] at hC
    have hCs : C.state = .idle := by rw [hC]
    have hCb : C.buffer = [] := by rw [hC]
    obtain ⟨hD1, hD2, hD3, hD4⟩ :=
      j1708_feed_idle C (b2h, t2h) rest2 hCs hCb hchain2 hts2 hcap2
    rw [← hD] at hD1 hD2 hD3
    have step2 := j1708_gap_completes D bp tp hD1
      (by rw [hD2]; simpa using hlen2)
      (by rw [hD2]; exact hck2)
      (by rw [hD3]; exact hprobe1)
      (by rw [hD3]; exact hprobe2)
      htp
    rw [step2] at hE
    injection hE with hEe hre2
    subst hEe
    subst hre2
    refine ⟨rfl, rfl, ?_, ?_⟩
    · show D.buffer = _
      exact hD2
    · obtain ⟨hdrain2, msg2, hm2, hraw2, hmid2, hckv2⟩ :=
        j1708_get_message_complete _ (rfl :
          ({ D with
              state := .complete
              messages_received := D.messages_received + 1 } :
            j1708_parser_context_t).state = .complete)
        (by show J1708_MIN_MESSAGE_LENGTH ≤ D.buffer.length
            rw [hD2]
            simpa using hlen2)
        (by show j1708_validate_checksum D.buffer = true
            rw [hD2]
            exact hck2)
      refine ⟨msg2, hm2, ?_, hckv2⟩
      rw [hraw2]
      show D.buffer = _
      exact hD2

instance (a b : Nat) : Decidable (gap10 a b) :=
  inferInstanceAs (Decidable (a ≤ b ∧ b - a ≤ 10))

/-- Receiver state after the first message (128, 110, 212, checksum 62). -/
def ctx_c6_A : j1708_parser_context_t :=
  { state := .receiving, buffer := [128, 110, 212, 62], last_byte_time_ms := 3,
    messages_received := 0, checksum_errors := 0, parse_errors := 0 }

/-- Receiver state after the gap-crossing byte completes message 1. -/
def ctx_c6_B : j1708_parser_context_t :=
  { state := .complete, buffer := [128, 110, 212, 62], last_byte_time_ms := 3,
    messages_received := 1, checksum_errors := 0, parse_errors := 0 }

/-- Receiver state after draining message 1. -/
def ctx_c6_C : j1708_parser_context_t :=
  { state := .idle, buffer := [], last_byte_time_ms := 3,
    messages_received := 1, checksum_errors := 0, parse_errors := 0 }

/-- Receiver state after re-submitting the deferred byte and the rest of
message 2 (128, 84, 120, checksum 180). -/
def ctx_c6_D : j1708_parser_context_t :=
  { state := .receiving, buffer := [128, 84, 120, 180], last_byte_time_ms := 23,
    messages_received := 1, checksum_errors := 0, parse_errors := 0 }

/-- Receiver state after the probe gap completes message 2. -/
def ctx_c6_E : j1708_parser_context_t :=
  { state := .complete, buffer := [128, 84, 120, 180], last_byte_time_ms := 23,
    messages_received := 2, checksum_errors := 0, parse_errors := 0 }

/-- Witness for claim C6 at two concrete valid messages with a 17 ms gap
between them and a probe 17 ms after the second. -/
theorem j1708_framer_gap_witness :
    (j1708_validate_checksum
        (((128, 0) :: [(110, 1), (212, 2), (62, 3)]).map Prod.fst) = true ∧
     j1708_validate_checksum
        (((128, 20) :: [(84, 21), (120, 22), (180, 23)]).map Prod.fst) = true ∧
     ctx_c6_A = j1708_feed j1708_parser_init
        ((128, 0) :: [(110, 1), (212, 2), (62, 3)]) ∧
     (ctx_c6_B, true) = j1708_receive_byte ctx_c6_A 128 20 ∧
     ctx_c6_C = (j1708_get_message ctx_c6_B).1 ∧
     ctx_c6_D = j1708_feed ctx_c6_C ((128, 20) :: [(84, 21), (120, 22), (180, 23)]) ∧
     (ctx_c6_E, true) = j1708_receive_byte ctx_c6_D 0 40) ∧
    ((true : Bool) = true ∧ ctx_c6_B.state = .complete ∧
     ctx_c6_B.buffer = ((128, 0) :: [(110, 1), (212, 2), (62, 3)]).map Prod.fst ∧
     (∀ b t, j1708_receive_byte ctx_c6_B b t = (ctx_c6_B, true)) ∧
     (∃ msg1, (j1708_get_message ctx_c6_B).2 = some msg1 ∧
       msg1.raw_data = ((128, 0) :: [(110, 1), (212, 2), (62, 3)]).map Prod.fst ∧
       msg1.checksum_valid = true) ∧
     (true : Bool) = true ∧ ctx_c6_E.state = .complete ∧
     ctx_c6_E.buffer = ((128, 20) :: [(84, 21), (120, 22), (180, 23)]).map Prod.fst ∧
     (∃ msg2, (j1708_get_message ctx_c6_E).2 = some msg2 ∧
       msg2.raw_data = ((128, 20) :: [(84, 21), (120, 22), (180, 23)]).map Prod.fst ∧
       msg2.checksum_valid = true)) :=
  ⟨⟨by decide, by decide, by decide, by decide, by decide, by decide, by decide⟩,
   j1708_framer_gap (128, 0) [(110, 1), (212, 2), (62, 3)] 128 20
     [(84, 21), (120, 22), (180, 23)] 0 40
     ctx_c6_A ctx_c6_B ctx_c6_C ctx_c6_D ctx_c6_E true true
     (by decide) (by decide) (by decide) (by simp [List.chain'_cons, gap10])
     (by decide) (by decide) (by decide) (by decide) (by decide) (by decide)
     (by simp [List.chain'_cons, gap10]) (by decide) (by decide) (by decide)
     (by decide) (by decide) (by decide) (by decide) (by decide) (by decide)⟩

/-! ### J1939 transport protocol (j1939_parser.cpp lines 28-37 and 278-391) -/

def J1939_TP_TIMEOUT_MS : Nat := 750

def J1939_MAX_ACTIVE_TP : Nat := 4

def PGN_TP_CM : Nat := 60416

def PGN_TP_DT : Nat := 60160

def TP_CM_BAM : Nat := 32

inductive tp_state_t
  | idle
  | receiving
  | complete
  | error
deriving DecidableEq

/-- Transport-protocol session; the 1785-byte reassembly array is modelled
as a total function from byte index to byte value. -/
structure tp_session_t where
  state : tp_state_t
  target_pgn : Nat
  source_address : Nat
  total_size : Nat
  total_packets : Nat
  received_packets : Nat
  buffer : Nat → Nat
  last_packet_time_ms : Nat

/-- Zeroed session, as left by j1939_parser_init's memset. -/
def tp_session_zero : tp_session_t :=
  { state := .idle, target_pgn := 0, source_address := 0, total_size := 0,
    total_packets := 0, received_packets := 0, buffer := fun _ => 0,
    last_packet_time_ms := 0 }

structure j1939_message_t where
  pgn : Nat
  source_address : Nat
  destination : Nat
  priority : Nat
  data : List Nat
  data_length : Nat
  timestamp_ms : Nat

structure j1939_parser_context_t where
  tp_sessions : List tp_session_t
  tp_complete_count : Nat

/-- j1939_parser_init: all sessions idle. -/
def j1939_parser_init_ctx : j1939_parser_context_t :=
  { tp_sessions := List.replicate J1939_MAX_ACTIVE_TP tp_session_zero,
    tp_complete_count := 0 }

/-- find_tp_session: index of the first non-idle session for the source
address. -/
def find_tp_session_aux (l : List tp_session_t) (sa : Nat) : Option Nat :=
  match l with
  | [] => none
  | s :: rest =>
    if s.state ≠ .idle ∧ s.source_address = sa then some 0
    else (find_tp_session_aux rest sa).map (· + 1)

def find_tp_session (ctx : j1939_parser_context_t) (sa : Nat) : Option Nat :=
  find_tp_session_aux ctx.tp_sessions sa

/-- allocate_tp_session: index of the first idle session. -/
def allocate_tp_session_aux (l : List tp_session_t) : Option Nat :=
  match l with
  | [] => none
  | s :: rest =>
    if s.state = .idle then some 0
    else (allocate_tp_session_aux rest).map (· + 1)

def allocate_tp_session (ctx : j1939_parser_context_t) : Option Nat :=
  allocate_tp_session_aux ctx.tp_sessions

/-- The 7-byte copy loop of the TP.DT handler: for i = 0..6 while
offset + i < total_size, write data[1 + i] at buffer[offset + i]. -/
def tp_copy_loop (buffer : Nat → Nat) (offset total_size : Nat) (data : List Nat)
    (i : Nat) : Nat → Nat :=
  if h : i < 7 ∧ offset + i < total_size then
    tp_copy_loop (Function.update buffer (offset + i) (data.getD (1 + i) 0))
      offset total_size data (i + 1)
  else buffer
termination_by 7 - i
decreasing_by
  simp_wf
  omega

/-- Fresh session opened by a Broadcast Announce: total size and target PGN
decoded little-endian from the control frame, buffer filled with 0xFF. -/
def tp_bam_session (msg : j1939_message_t) : tp_session_t :=
  { state := .receiving
    source_address := msg.source_address
    total_size := msg.data.getD 1 0 ||| (msg.data.getD 2 0 <<< 8)
    total_packets := msg.data.getD 3 0
    target_pgn := msg.data.getD 5 0 ||| (msg.data.getD 6 0 <<< 8) |||
      (msg.data.getD 7 0 <<< 16)
    received_packets := 0
    buffer := fun _ => 0xFF
    last_packet_time_ms := msg.timestamp_ms }

/-- j1939_tp_handle_frame (lines 297-368).  The returned flag is true when
a multi-packet message just completed. -/
def j1939_tp_handle_frame (ctx : j1939_parser_context_t) (msg : j1939_message_t) :
    j1939_parser_context_t × Bool :=
  if msg.pgn = PGN_TP_CM then
    if msg.data.getD 0 0 = TP_CM_BAM then
      match (match find_tp_session ctx msg.source_address with
             | some i => some i
             | none => allocate_tp_session ctx) with
      | none => (ctx, false)
      | some i =>
        ({ ctx with
           tp_sessions := ctx.tp_sessions.set i (tp_bam_session msg) }, false)
    else (ctx, false)
  else if msg.pgn = PGN_TP_DT then
    match find_tp_session ctx msg.source_address with
    | none => (ctx, false)
    | some i =>
      let s := ctx.tp_sessions.getD i tp_session_zero
      if s.state ≠ .receiving then (ctx, false)
      else if u32_sub msg.timestamp_ms s.last_packet_time_ms >
          J1939_TP_TIMEOUT_MS then
        ({ ctx with
           tp_sessions := ctx.tp_sessions.set i { s with state := .error } },
         false)
      else if msg.data.getD 0 0 ≠ s.received_packets + 1 then
        ({ ctx with
           tp_sessions := ctx.tp_sessions.set i { s with state := .error } },
         false)
      else
        let s' : tp_session_t := { s with
          buffer := tp_copy_loop s.buffer ((msg.data.getD 0 0 - 1) * 7)
            s.total_size msg.data 0
          received_packets := s.received_packets + 1
          last_packet_time_ms := msg.timestamp_ms }
        if s'.received_packets ≥ s'.total_packets then
          ({ ctx with
              tp_sessions := ctx.tp_sessions.set i { s' with state := .complete }
              tp_complete_count := ctx.tp_complete_count + 1 }, true)
        else
          ({ ctx with tp_sessions := ctx.tp_sessions.set i s' }, false)
  else (ctx, false)

/-- j1939_tp_get_data (lines 370-391): returns the updated context, the
number of copied bytes, the target PGN out-parameter (0 when nothing was
copied and the C code leaves it unwritten) and the copied bytes; a drained
session returns to idle. -/
def j1939_tp_get_data (ctx : j1939_parser_context_t) (source_address max_len : Nat) :
    j1939_parser_context_t × Nat × Nat × List Nat :=
  match find_tp_session ctx source_address with
  | none => (ctx, 0, 0, [])
  | some i =>
    let s := ctx.tp_sessions.getD i tp_session_zero
    if s.state ≠ .complete then (ctx, 0, 0, [])
    else
      let copy_len := if s.total_size < max_len then s.total_size else max_len
      ({ ctx with tp_sessions := ctx.tp_sessions.set i { s with state := .idle } },
       copy_len, s.target_pgn, (List.range copy_len).map s.buffer)

/-- Broadcast Announce frame (control byte 32, size and target PGN encoded
little-endian, byte 4 the 0xFF filler), handed to the parser as a decoded
message on PGN 60416. -/
def bam_msg (sa size packets pgn t : Nat) : j1939_message_t :=
  { pgn := PGN_TP_CM, source_address := sa, destination := 0xFF, priority := 7,
    data := [TP_CM_BAM, size % 256, size / 256 % 256, packets, 0xFF,
             pgn % 256, pgn / 256 % 256, pgn / 65536 % 256],
    data_length := 8, timestamp_ms := t }

/-- Data Transfer frame: 1-based sequence number then seven payload bytes. -/
def dt_msg (sa seq : Nat) (payload : List Nat) (t : Nat) : j1939_message_t :=
  { pgn := PGN_TP_DT, source_address := sa, destination := 0xFF, priority := 7,
    data := seq :: payload, data_length := 8, timestamp_ms := t }

/-- In-order Data Transfer frames with consecutive sequence numbers from
start, one per (payload, timestamp) pair. -/
def dt_msgs (sa start : Nat) (pts : List (List Nat × Nat)) :
    List j1939_message_t :=
  match pts with
  | [] => []
  | pt :: rest => dt_msg sa start pt.1 pt.2 :: dt_msgs sa (start + 1) rest

def j1939_feed_frames (ctx : j1939_parser_context_t)
    (msgs : List j1939_message_t) : j1939_parser_context_t :=
  msgs.foldl (fun c m => (j1939_tp_handle_frame c m).1) ctx

/-- Inter-packet timing: within the 750 ms transport timeout. -/
def tp_gap (a b : Nat) : Prop := a ≤ b ∧ b - a ≤ 750

instance (a b : Nat) : Decidable (tp_gap a b) :=
  inferInstanceAs (Decidable (a ≤ b ∧ b - a ≤ 750))

theorem tp_copy_loop_apply (data : List Nat) (offset total : Nat) :
    ∀ i (buffer : Nat → Nat) (j : Nat),
      tp_copy_loop buffer offset total data i j =
        if offset + i ≤ j ∧ j < offset + 7 ∧ j < total then
          data.getD (1 + (j - offset)) 0
        else buffer j := by
  have H : ∀ n i (buffer : Nat → Nat) (j : Nat), 7 - i ≤ n →
      tp_copy_loop buffer offset total data i j =
        if offset + i ≤ j ∧ j < offset + 7 ∧ j < total then
          data.getD (1 + (j - offset)) 0
        else buffer j := by
    intro n
    induction n with
    | zero =>
      intro i buffer j hn
      rw [tp_copy_loop, dif_neg (by omega), if_neg (by omega)]
    | succ n ih =>
      intro i buffer j hn
      rw [tp_copy_loop]
      by_cases h1 : i < 7 ∧ offset + i < total
      · rw [dif_pos h1, ih (i + 1) _ j (by omega)]
        by_cases h2 : offset + (i + 1) ≤ j ∧ j < offset + 7 ∧ j < total
        · rw [if_pos h2, if_pos (by omega)]
        · rw [if_neg h2, Function.update_apply]
          by_cases h3 : j = offset + i
          · rw [if_pos h3, if_pos (by omega)]
            have he : 1 + (j - offset) = 1 + i := by omega
            rw [he]
          · rw [if_neg h3, if_neg (by omega)]
      · rw [dif_neg h1, if_neg (by omega)]
  exact fun i buffer j => H 7 i buffer j (by omega)

theorem find_tp_session_aux_lt (sa : Nat) :
    ∀ (l : List tp_session_t) (i : Nat),
      find_tp_session_aux l sa = some i → i < l.length := by
  intro l
  induction l with
  | nil =>
    intro i h
    rw [find_tp_session_aux] at h
    exact Option.noConfusion h
  | cons s rest ih =>
    intro i h
    rw [find_tp_session_aux] at h
    by_cases hc : s.state ≠ .idle ∧ s.source_address = sa
    · rw [if_pos hc] at h
      cases h
      simp
    · rw [if_neg hc] at h
      cases hr : find_tp_session_aux rest sa with
      | none => rw [hr] at h; simp at h
      | some j =>
        rw [hr] at h
        simp only [Option.map_some'] at h
        cases h
        have := ih j hr
        simp only [List.length_cons]
        omega

theorem find_tp_session_aux_set (sa : Nat) (s' : tp_session_t)
    (hs : s'.state ≠ .idle) (hsa : s'.source_address = sa) :
    ∀ (l : List tp_session_t) (i : Nat),
      find_tp_session_aux l sa = some i →
      find_tp_session_aux (l.set i s') sa = some i := by
  intro l
  induction l with
  | nil =>
    intro i h
    rw [find_tp_session_aux] at h
    exact Option.noConfusion h
  | cons s rest ih =>
    intro i h
    rw [find_tp_session_aux] at h
    by_cases hc : s.state ≠ .idle ∧ s.source_address = sa
    · rw [if_pos hc] at h
      cases h
      rw [List.set_cons_zero, find_tp_session_aux, if_pos ⟨hs, hsa⟩]
    · rw [if_neg hc] at h
      cases hr : find_tp_session_aux rest sa with
      | none => rw [hr] at h; simp at h
      | some j =>
        rw [hr] at h
        simp only [Option.map_some'] at h
        cases h
        rw [List.set_cons_succ, find_tp_session_aux, if_neg hc, ih j hr]
        rfl

theorem getD_set_self (l : List tp_session_t) (i : Nat) (hi : i < l.length)
    (a : tp_session_t) : (l.set i a).getD i tp_session_zero = a := by
  rw [List.getD_eq_getElem _ _ (by simpa using hi)]
  exact List.getElem_set_self _

/-- Byte j of the reassembled region when the pending payload list starts
at packet index r: chunk j / 7 - r, byte j % 7. -/
def tp_chunk_byte (r : Nat) (pts : List (List Nat × Nat)) (j : Nat) : Nat :=
  ((pts.getD (j / 7 - r) ([], 0)).1).getD (j % 7) 0

theorem tp_chunk_byte_head (r j : Nat) (pt : List Nat × Nat)
    (rest : List (List Nat × Nat)) (h1 : r * 7 ≤ j) (h2 : j < r * 7 + 7) :
    tp_chunk_byte r (pt :: rest) j = pt.1.getD (j - r * 7) 0 := by
  unfold tp_chunk_byte
  have hd : j / 7 - r = 0 := by omega
  have hm : j % 7 = j - r * 7 := by omega
  rw [hd, hm, List.getD_cons_zero]

theorem tp_chunk_byte_tail (r j : Nat) (pt : List Nat × Nat)
    (rest : List (List Nat × Nat)) (h1 : r * 7 + 7 ≤ j) :
    tp_chunk_byte r (pt :: rest) j = tp_chunk_byte (r + 1) rest j := by
  unfold tp_chunk_byte
  have hd : j / 7 - r = (j / 7 - (r + 1)) + 1 := by omega
  rw [hd, List.getD_cons_succ]

/-- The session state written by an accepted in-sequence TP.DT frame. -/
def tp_next_session (s : tp_session_t) (p : List Nat) (t : Nat) : tp_session_t :=
  { s with
    buffer := tp_copy_loop s.buffer (s.received_packets * 7) s.total_size
      ((s.received_packets + 1) :: p) 0
    received_packets := s.received_packets + 1
    last_packet_time_ms := t }

theorem tp_handle_dt_step_mid (l : List tp_session_t) (cnt i sa : Nat)
    (s : tp_session_t) (p : List Nat) (t : Nat)
    (hfind : find_tp_session_aux l sa = some i)
    (hget : l.getD i tp_session_zero = s)
    (hst : s.state = .receiving)
    (hg1 : s.last_packet_time_ms ≤ t) (hg2 : t - s.last_packet_time_ms ≤ 750)
    (ht : t < 2 ^ 32)
    (hlt : s.received_packets + 1 < s.total_packets) :
    j1939_tp_handle_frame ⟨l, cnt⟩ (dt_msg sa (s.received_packets + 1) p t) =
      (⟨l.set i (tp_next_session s p t), cnt⟩, false) := by
  have hto : ¬ (u32_sub t s.last_packet_time_ms > J1939_TP_TIMEOUT_MS) := by
    rw [u32_sub_eq hg1 ht, J1939_TP_TIMEOUT_MS]
    omega
  rw [j1939_tp_handle_frame]
  rw [if_neg (by simp [dt_msg, PGN_TP_DT, PGN_TP_CM]),
    if_pos (by simp [dt_msg])]
  simp only [find_tp_session, dt_msg]
  rw [hfind]
  simp only [hget, List.getD_cons_zero]
  rw [if_neg (by rw [hst]; simp), if_neg hto,
    if_neg (by simp), if_neg (by omega)]
  simp only [tp_next_session, Nat.add_sub_cancel]

theorem tp_handle_dt_step_last (l : List tp_session_t) (cnt i sa : Nat)
    (s : tp_session_t) (p : List Nat) (t : Nat)
    (hfind : find_tp_session_aux l sa = some i)
    (hget : l.getD i tp_session_zero = s)
    (hst : s.state = .receiving)
    (hg1 : s.last_packet_time_ms ≤ t) (hg2 : t - s.last_packet_time_ms ≤ 750)
    (ht : t < 2 ^ 32)
    (hge : s.received_packets + 1 ≥ s.total_packets) :
    j1939_tp_handle_frame ⟨l, cnt⟩ (dt_msg sa (s.received_packets + 1) p t) =
      (⟨l.set i { tp_next_session s p t with state := .complete }, cnt + 1⟩,
       true) := by
  have hto : ¬ (u32_sub t s.last_packet_time_ms > J1939_TP_TIMEOUT_MS) := by
    rw [u32_sub_eq hg1 ht, J1939_TP_TIMEOUT_MS]
    omega
  rw [j1939_tp_handle_frame]
  rw [if_neg (by simp [dt_msg, PGN_TP_DT, PGN_TP_CM]),
    if_pos (by simp [dt_msg])]
  simp only [find_tp_session, dt_msg]
  rw [hfind]
  simp only [hget, List.getD_cons_zero]
  rw [if_neg (by rw [hst]; simp), if_neg hto,
    if_neg (by simp), if_pos (by omega)]
  simp only [tp_next_session, Nat.add_sub_cancel]

theorem tp_feed_dts_spec (sa : Nat) (pts : List (List Nat × Nat)) :
    ∀ (l : List tp_session_t) (cnt i : Nat) (s : tp_session_t),
      find_tp_session_aux l sa = some i →
      l.getD i tp_session_zero = s →
      s.state = .receiving →
      s.source_address = sa →
      s.received_packets + pts.length = s.total_packets →
      pts ≠ [] →
      List.Chain' tp_gap (s.last_packet_time_ms :: pts.map Prod.snd) →
      (∀ t ∈ pts.map Prod.snd, t < 2 ^ 32) →
      ∃ sF,
        find_tp_session_aux
          (j1939_feed_frames ⟨l, cnt⟩
            (dt_msgs sa (s.received_packets + 1) pts)).tp_sessions sa = some i ∧
        (j1939_feed_frames ⟨l, cnt⟩
          (dt_msgs sa (s.received_packets + 1) pts)).tp_sessions.getD i
            tp_session_zero = sF ∧
        sF.state = .complete ∧
        sF.source_address = sa ∧
        sF.total_size = s.total_size ∧
        sF.target_pgn = s.target_pgn ∧
        sF.total_packets = s.total_packets ∧
        sF.received_packets = s.total_packets ∧
        (∀ j, sF.buffer j =
          if s.received_packets * 7 ≤ j ∧
              j < (s.received_packets + pts.length) * 7 ∧ j < s.total_size then
            tp_chunk_byte s.received_packets pts j
          else s.buffer j) := by
  induction pts with
  | nil =>
    intro l cnt i s _ _ _ _ _ hne _ _
    exact absurd rfl hne
  | cons pt rest ih =>
    intro l cnt i s hfind hget hst hsa hcount hne hchain hts
    simp only [List.map_cons, List.chain'_cons] at hchain
    have hilt : i < l.length := find_tp_session_aux_lt sa l i hfind
    have ht : pt.2 < 2 ^ 32 := hts pt.2 (by simp)
    rcases Decidable.em (rest = []) with hr | hr
    · subst hr
      have hge : s.received_packets + 1 ≥ s.total_packets := by
        simp only [List.length_cons, List.length_nil] at hcount
        omega
      have hstep := tp_handle_dt_step_last l cnt i sa s pt.1 pt.2 hfind hget hst
        hchain.1.1 hchain.1.2 ht hge
      have hfeed : j1939_feed_frames ⟨l, cnt⟩
          (dt_msgs sa (s.received_packets + 1) [pt]) =
          ⟨l.set i { tp_next_session s pt.1 pt.2 with state := .complete },
            cnt + 1⟩ := by
        show (j1939_feed_frames (j1939_tp_handle_frame ⟨l, cnt⟩
          (dt_msg sa (s.received_packets + 1) pt.1 pt.2)).1 []) = _
        rw [hstep]
        rfl
      refine ⟨{ tp_next_session s pt.1 pt.2 with state := .complete },
        ?_, ?_, rfl, hsa, rfl, rfl, rfl, ?_, ?_⟩
      · rw [hfeed]
        exact find_tp_session_aux_set sa
          { tp_next_session s pt.1 pt.2 with state := .complete }
          (by show tp_state_t.complete ≠ tp_state_t.idle; decide) hsa l i hfind
      · rw [hfeed]
        exact getD_set_self l i hilt _
      · show s.received_packets + 1 = s.total_packets
        simp only [List.length_cons, List.length_nil] at hcount
        omega
      · intro j
        show tp_copy_loop s.buffer (s.received_packets * 7) s.total_size
            ((s.received_packets + 1) :: pt.1) 0 j = _
        rw [tp_copy_loop_apply]
        simp only [List.length_cons, List.length_nil, Nat.zero_add]
        by_cases hj : s.received_packets * 7 ≤ j ∧
            j < (s.received_packets + 1) * 7 ∧ j < s.total_size
        · rw [if_pos (show s.received_packets * 7 + 0 ≤ j ∧
              j < s.received_packets * 7 + 7 ∧ j < s.total_size by omega),
            if_pos hj, tp_chunk_byte_head _ _ _ _ hj.1 (by omega)]
          have h1k : 1 + (j - s.received_packets * 7) =
              (j - s.received_packets * 7) + 1 := by omega
          rw [h1k, List.getD_cons_succ]
        · rw [if_neg (by omega), if_neg hj]
    · have hlt : s.received_packets + 1 < s.total_packets := by
        have hr1 : rest.length ≥ 1 := by
          cases rest with
          | nil => exact absurd rfl hr
          | cons a b => simp
        simp only [List.length_cons] at hcount
        omega
      have hstep := tp_handle_dt_step_mid l cnt i sa s pt.1 pt.2 hfind hget hst
        hchain.1.1 hchain.1.2 ht hlt
      have hfeed : j1939_feed_frames ⟨l, cnt⟩
          (dt_msgs sa (s.received_packets + 1) (pt :: rest)) =
          j1939_feed_frames ⟨l.set i (tp_next_session s pt.1 pt.2), cnt⟩
            (dt_msgs sa (s.received_packets + 1 + 1) rest) := by
        show (j1939_feed_frames (j1939_tp_handle_frame ⟨l, cnt⟩
          (dt_msg sa (s.received_packets + 1) pt.1 pt.2)).1
          (dt_msgs sa (s.received_packets + 1 + 1) rest)) = _
        rw [hstep]
      obtain ⟨sF, ihf, ihg, ih1, ih2, ih3, ih4, ih5, ih6, ih7⟩ :=
        ih (l.set i (tp_next_session s pt.1 pt.2)) cnt i
          (tp_next_session s pt.1 pt.2)
          (find_tp_session_aux_set sa (tp_next_session s pt.1 pt.2)
            (by show s.state ≠ .idle; rw [hst]; decide) hsa l i hfind)
          (getD_set_self l i hilt _)
          hst hsa
          (by show s.received_packets + 1 + rest.length = s.total_packets
              simp only [List.length_cons] at hcount
              omega)
          hr hchain.2
          (fun t htm => hts t (by simp [htm]))
      simp only [tp_next_session] at ih7
      refine ⟨sF, ?_, ?_, ih1, ih2, ih3, ih4, ih5, ih6, ?_⟩
      · rw [hfeed]
        exact ihf
      · rw [hfeed]
        exact ihg
      · intro j
        rw [ih7 j, tp_copy_loop_apply]
        simp only [List.length_cons]
        by_cases hA : (s.received_packets + 1) * 7 ≤ j ∧
            j < (s.received_packets + 1 + rest.length) * 7 ∧ j < s.total_size
        · rw [if_pos hA, if_pos (by omega),
            tp_chunk_byte_tail _ _ _ _ (by omega)]
        · rw [if_neg hA]
          by_cases hB : s.received_packets * 7 ≤ j ∧
              j < s.received_packets * 7 + 7 ∧ j < s.total_size
          · rw [if_pos (show s.received_packets * 7 + 0 ≤ j ∧
                j < s.received_packets * 7 + 7 ∧ j < s.total_size by omega),
              if_pos (by omega),
              tp_chunk_byte_head _ _ _ _ hB.1 hB.2.1]
            have h1k : 1 + (j - s.received_packets * 7) =
                (j - s.received_packets * 7) + 1 := by omega
            rw [h1k, List.getD_cons_succ]
          · rw [if_neg (by omega), if_neg (by omega)]

theorem tp_le16_decode (S : Nat) (h : S < 2 ^ 16) :
    S % 256 ||| ((S / 256 % 256) <<< 8) = S := by
  rw [Nat.lor_comm,
    shiftLeft_lor_eq_add (S / 256 % 256) (show S % 256 < 2 ^ 8 by omega),
    Nat.shiftLeft_eq]
  omega

theorem tp_le24_decode (p : Nat) (h : p < 2 ^ 24) :
    p % 256 ||| ((p / 256 % 256) <<< 8) ||| ((p / 65536 % 256) <<< 16) = p := by
  have h16 : p % 256 ||| ((p / 256 % 256) <<< 8) = p % 65536 := by
    have h1 : p % 256 = p % 65536 % 256 := by omega
    have h2 : p / 256 % 256 = p % 65536 / 256 % 256 := by omega
    rw [h1, h2, tp_le16_decode (p % 65536) (by omega)]
  rw [h16, Nat.lor_comm,
    shiftLeft_lor_eq_add (p / 65536 % 256) (show p % 65536 < 2 ^ 16 by omega),
    Nat.shiftLeft_eq]
  omega

theorem tp_bam_step (sa S P pgn t : Nat) :
    j1939_tp_handle_frame j1939_parser_init_ctx (bam_msg sa S P pgn t) =
      ({ tp_sessions := (List.replicate J1939_MAX_ACTIVE_TP
            tp_session_zero).set 0 (tp_bam_session (bam_msg sa S P pgn t)),
         tp_complete_count := 0 }, false) := rfl

theorem tp_chunk_byte_flatten (pts : List (List Nat × Nat))
    (hlen : ∀ pt ∈ pts, (Prod.fst pt).length = 7) :
    ∀ j, j < 7 * pts.length →
      tp_chunk_byte 0 pts j = ((pts.map Prod.fst).flatten).getD j 0 := by
  induction pts with
  | nil =>
    intro j hj
    simp at hj
  | cons pt rest ih =>
    intro j hj
    have hlpt : (Prod.fst pt).length = 7 := hlen pt (by simp)
    simp only [List.length_cons] at hj
    rw [List.map_cons, List.flatten_cons]
    by_cases h7 : j < 7
    · rw [tp_chunk_byte_head 0 j pt rest (by omega) (by omega),
        List.getD_append _ _ _ _ (by omega)]
      have hz : j - 0 * 7 = j := by omega
      rw [hz]
    · rw [tp_chunk_byte_tail 0 j pt rest (by omega),
        List.getD_append_right _ _ _ _ (by omega), hlpt]
      have hshift : tp_chunk_byte (0 + 1) rest j = tp_chunk_byte 0 rest (j - 7) := by
        unfold tp_chunk_byte
        have hd : j / 7 - (0 + 1) = (j - 7) / 7 - 0 := by omega
        have hm : j % 7 = (j - 7) % 7 := by omega
        rw [hd, hm]
      rw [hshift, ih (fun q hq => hlen q (by simp [hq])) (j - 7) (by omega)]

theorem tp_get_data_complete (ctx : j1939_parser_context_t)
    (sa max_len i : Nat) (sF : tp_session_t)
    (hfind : find_tp_session ctx sa = some i)
    (hget : ctx.tp_sessions.getD i tp_session_zero = sF)
    (hstate : sF.state = .complete) :
    j1939_tp_get_data ctx sa max_len =
      ({ ctx with
          tp_sessions := ctx.tp_sessions.set i { sF with state := .idle } },
       (if sF.total_size < max_len then sF.total_size else max_len),
       sF.target_pgn,
       (List.range
         (if sF.total_size < max_len then sF.total_size else max_len)).map
         sF.buffer) := by
  simp only [j1939_tp_get_data, hfind, hget]
  rw [if_neg (show ¬(sF.state ≠ tp_state_t.complete) from fun hx => hx hstate)]

/-- Claim C1: for every BAM announcing total_size = S (1 ≤ S ≤ 1785) and
packets = ceil(S/7) from a source address, followed by DT frames with
1-based sequence numbers delivered in order within the 750 ms inter-packet
timeout (seven payload bytes each), j1939_tp_handle_frame reaches the
complete state, and a subsequent j1939_tp_get_data for that source address
returns min(S, caller buffer size) bytes equal to the concatenated DT
payloads truncated to S, writes the announced target PGN, and returns the
session slot to idle. -/
theorem j1939_tp_bam_reassembly (sa S pgn max_len t0 : Nat)
    (pts : List (List Nat × Nat))
    (hS1 : 1 ≤ S) (hS2 : S ≤ 1785) (hpgn : pgn < 2 ^ 24)
    (hP : pts.length = (S + 6) / 7)
    (hlen : ∀ pt ∈ pts, (Prod.fst pt).length = 7)
    (hchain : List.Chain' tp_gap (t0 :: pts.map Prod.snd))
    (hts : ∀ t ∈ pts.map Prod.snd, t < 2 ^ 32) :
    (j1939_tp_get_data
        (j1939_feed_frames j1939_parser_init_ctx
          (bam_msg sa S pts.length pgn t0 :: dt_msgs sa 1 pts)) sa max_len).2 =
      (min S max_len, pgn,
        (List.range (min S max_len)).map
          (fun j => ((pts.map Prod.fst).flatten).getD j 0)) ∧
    ((j1939_tp_get_data
        (j1939_feed_frames j1939_parser_init_ctx
          (bam_msg sa S pts.length pgn t0 :: dt_msgs sa 1 pts)) sa
        max_len).1.tp_sessions.getD 0 tp_session_zero).state =
      tp_state_t.idle := by
  have hne : pts ≠ [] := by
    intro hx
    rw [hx] at hP
    simp at hP
    omega
  have hfeed_eq : j1939_feed_frames j1939_parser_init_ctx
      (bam_msg sa S pts.length pgn t0 :: dt_msgs sa 1 pts) =
      j1939_feed_frames
        ⟨(List.replicate J1939_MAX_ACTIVE_TP tp_session_zero).set 0
          (tp_bam_session (bam_msg sa S pts.length pgn t0)), 0⟩
        (dt_msgs sa 1 pts) := by
    show j1939_feed_frames (j1939_tp_handle_frame j1939_parser_init_ctx
      (bam_msg sa S pts.length pgn t0)).1 (dt_msgs sa 1 pts) = _
    rw [tp_bam_step]
  obtain ⟨sF, ihf, ihg, ihstate, ihsa, ihsize, ihpgn, ihtp, ihrecv, ihbuf⟩ :=
    tp_feed_dts_spec sa pts
      ((List.replicate J1939_MAX_ACTIVE_TP tp_session_zero).set 0
        (tp_bam_session (bam_msg sa S pts.length pgn t0)))
      0 0 (tp_bam_session (bam_msg sa S pts.length pgn t0))
      (by show find_tp_session_aux
            ((tp_bam_session (bam_msg sa S pts.length pgn t0)) ::
              List.replicate 3 tp_session_zero) sa = some 0
          rw [find_tp_session_aux,
            if_pos ⟨show tp_state_t.receiving ≠ tp_state_t.idle by decide, rfl⟩])
      rfl rfl rfl
      (by show 0 + pts.length = pts.length; omega)
      hne hchain hts
  have hdt : dt_msgs sa
      ((tp_bam_session (bam_msg sa S pts.length pgn t0)).received_packets + 1)
      pts = dt_msgs sa 1 pts := rfl
  rw [hdt] at ihf ihg
  have htot : (tp_bam_session (bam_msg sa S pts.length pgn t0)).total_size
      = S := by
    show S % 256 ||| ((S / 256 % 256) <<< 8) = S
    exact tp_le16_decode S (by omega)
  have htgt : (tp_bam_session (bam_msg sa S pts.length pgn t0)).target_pgn
      = pgn := by
    show pgn % 256 ||| ((pgn / 256 % 256) <<< 8) |||
      ((pgn / 65536 % 256) <<< 16) = pgn
    exact tp_le24_decode pgn hpgn
  have hsize : sF.total_size = S := by rw [ihsize, htot]
  have hpg : sF.target_pgn = pgn := by rw [ihpgn, htgt]
  have hbyte : ∀ j, j < S →
      sF.buffer j = ((pts.map Prod.fst).flatten).getD j 0 := by
    intro j hj
    rw [ihbuf j,
      if_pos ⟨show 0 * 7 ≤ j by omega,
        show j < (0 + pts.length) * 7 by omega,
        by rw [htot]; exact hj⟩,
      show tp_chunk_byte
          (tp_bam_session (bam_msg sa S pts.length pgn t0)).received_packets
          pts j = tp_chunk_byte 0 pts j from rfl,
      tp_chunk_byte_flatten pts hlen j (by omega)]
  rw [hfeed_eq]
  have hfind2 : find_tp_session
      (j1939_feed_frames
        ⟨(List.replicate J1939_MAX_ACTIVE_TP tp_session_zero).set 0
          (tp_bam_session (bam_msg sa S pts.length pgn t0)), 0⟩
        (dt_msgs sa 1 pts)) sa = some 0 := ihf
  have hdata := tp_get_data_complete _ sa max_len 0 sF hfind2 ihg ihstate
  have hmin : (if sF.total_size < max_len then sF.total_size else max_len)
      = min S max_len := by
    rw [hsize]
    rcases Nat.lt_or_ge S max_len with h | h
    · rw [if_pos h, Nat.min_eq_left (Nat.le_of_lt h)]
    · rw [if_neg (Nat.not_lt.mpr h), Nat.min_eq_right h]
  rw [hmin, hpg] at hdata
  constructor
  · rw [hdata]
    show (min S max_len, pgn, (List.range (min S max_len)).map sF.buffer) =
      (min S max_len, pgn, (List.range (min S max_len)).map
        (fun j => ((pts.map Prod.fst).flatten).getD j 0))
    have hmapeq : (List.range (min S max_len)).map sF.buffer =
        (List.range (min S max_len)).map
          (fun j => ((pts.map Prod.fst).flatten).getD j 0) := by
      apply List.map_congr_left
      intro j hjm
      have hj := List.mem_range.mp hjm
      exact hbyte j (by omega)
    rw [hmapeq]
  · rw [hdata, getD_set_self _ _ (find_tp_session_aux_lt sa _ 0 ihf) _]

/-- Payloads of the spec's BAM walkthrough: 14 bytes A1h..AEh in two DT
frames, 100 ms apart. -/
def pts_c1 : List (List Nat × Nat) :=
  [([161, 162, 163, 164, 165, 166, 167], 100),
   ([168, 169, 170, 171, 172, 173, 174], 200)]

theorem j1939_tp_bam_reassembly_witness :
    (1 ≤ 14 ∧ 14 ≤ 1785 ∧ 65226 < 2 ^ 24 ∧
      pts_c1.length = (14 + 6) / 7 ∧
      (∀ pt ∈ pts_c1, (Prod.fst pt).length = 7) ∧
      List.Chain' tp_gap (0 :: pts_c1.map Prod.snd) ∧
      (∀ t ∈ pts_c1.map Prod.snd, t < 2 ^ 32)) ∧
    ((j1939_tp_get_data
        (j1939_feed_frames j1939_parser_init_ctx
          (bam_msg 10 14 pts_c1.length 65226 0 :: dt_msgs 10 1 pts_c1)) 10
        1785).2 =
      (min 14 1785, 65226,
        (List.range (min 14 1785)).map
          (fun j => ((pts_c1.map Prod.fst).flatten).getD j 0)) ∧
     ((j1939_tp_get_data
        (j1939_feed_frames j1939_parser_init_ctx
          (bam_msg 10 14 pts_c1.length 65226 0 :: dt_msgs 10 1 pts_c1)) 10
        1785).1.tp_sessions.getD 0 tp_session_zero).state = tp_state_t.idle) :=
  ⟨⟨by decide, by decide, by decide, by decide, by decide,
    by simp [pts_c1, List.chain'_cons, tp_gap],
    by decide⟩,
   j1939_tp_bam_reassembly 10 14 65226 1785 0 pts_c1 (by decide) (by decide)
     (by decide) (by decide) (by decide)
     (by simp [pts_c1, List.chain'_cons, tp_gap]) (by decide)⟩
